import Mathlib

/-!
A shallow embedding in Lean 4 of the core message pipeline of the
whatsapp-taxi-bot repository, together with theorems settling the claims
of its specification.

Source files embedded:
  * `src/core/filter.js`  — classifier and fingerprint engine
  * `src/core/router.js`  — rate limiter, circuit breaker, delivery loop,
                            Path A / Path B target construction
  * `src/core/index.js`   — intake gate (`handleMessage`), fingerprint
                            commit/release, fingerprint persistence
  * `src/core/globalDefaults.js` — numeric constants

Modelling conventions:
  * JS strings are modelled as `String` / `List Char`; all inputs used in
    concrete theorems are ASCII, where `Char.toLower` agrees with
    JS `String.prototype.toLowerCase`.
  * JS numbers holding integral millisecond timestamps and counters are
    modelled as `Int` / `Nat`.  `Math.floor(x / d)` for positive `d` is
    `Int` division (`Int.ediv`, which floors for positive divisors).
  * JS 32-bit coercions (`x & x`, `x << 5`) wrap through `toInt32`.
  * `Set` / `Map` objects are insertion-ordered lists, mirroring the
    iteration order the source relies on.
  * Asynchronous external effects (the Baileys `sendMessage` call,
    `Math.random`) are supplied as explicit oracle arguments, so the
    state-transition logic itself is a pure function of the oracles.
-/

set_option maxRecDepth 100000

namespace TaxiBot

/-! ### Character classes (JS regex classes restricted to the code points
the source manipulates) -/

/-- JS `\s` on the whitespace code points that occur in the pipeline. -/
def isSpaceJs (c : Char) : Bool :=
  c == ' ' || c == '\t' || c == '\n' || c == '\r' || c == '\x0b' || c == '\x0c'

/-- JS `\w` : `[A-Za-z0-9_]`. -/
def isWordChar (c : Char) : Bool :=
  (65 ≤ c.toNat && c.toNat ≤ 90) || (97 ≤ c.toNat && c.toNat ≤ 122) ||
  (48 ≤ c.toNat && c.toNat ≤ 57) || c == '_'

/-- JS `[a-z]`. -/
def isAsciiLower (c : Char) : Bool :=
  97 ≤ c.toNat && c.toNat ≤ 122

/-- `String.prototype.toLowerCase` on the ASCII range (the only range the
concrete inputs of this development use). -/
def jsToLower (c : Char) : Char := c.toLower

/-! ### List utilities mirroring JS string methods -/

/-- Does `s` start with `p` (JS `startsWith`)? -/
def listStartsWith : List Char → List Char → Bool
  | _, [] => true
  | [], _ :: _ => false
  | c :: cs, p :: ps => c == p && listStartsWith cs ps

/-- JS `String.prototype.includes`: `needle` occurs as a contiguous
substring of the argument. -/
def containsSub (needle : List Char) : List Char → Bool
  | [] => needle.isEmpty
  | c :: t => listStartsWith (c :: t) needle || containsSub needle t

/-- JS `String.prototype.endsWith`. -/
def listEndsWith (l suf : List Char) : Bool :=
  listStartsWith l.reverse suf.reverse

/-- JS `String.prototype.trim` (whitespace stripped from both ends). -/
def trimJs (l : List Char) : List Char :=
  ((l.dropWhile (fun c => isSpaceJs c)).reverse.dropWhile (fun c => isSpaceJs c)).reverse

/-- JS `replace(/\s+/g, " ")`: every maximal whitespace run becomes one
space. -/
def collapseWs : List Char → List Char
  | [] => []
  | [c] => if isSpaceJs c then [' '] else [c]
  | c1 :: c2 :: cs =>
    if isSpaceJs c1 && isSpaceJs c2 then collapseWs (c2 :: cs)
    else if isSpaceJs c1 then ' ' :: collapseWs (c2 :: cs)
    else c1 :: collapseWs (c2 :: cs)

/-- Flush a pending digit run for `replaceLongDigits`: runs of length ≥ 10
become the placeholder `PHONE` (source: `replace(/\d{10,}/g, 'PHONE')`). -/
def flushDigitRun (run : List Char) : List Char :=
  if 10 ≤ run.length then "PHONE".toList else run

/-- Worker for `replaceLongDigits`; `run` holds the digit run currently
being read, in order. -/
def replaceLongDigitsAux (run : List Char) : List Char → List Char
  | [] => flushDigitRun run
  | c :: t =>
    if c.isDigit then replaceLongDigitsAux (run ++ [c]) t
    else flushDigitRun run ++ c :: replaceLongDigitsAux [] t

/-- JS `replace(/\d{10,}/g, 'PHONE')`. -/
def replaceLongDigits (l : List Char) : List Char :=
  replaceLongDigitsAux [] l

/-- JS `Array.prototype.slice(-n)` on a char list (last `n` elements, or
the whole list when shorter). -/
def sliceLast (n : Nat) (l : List Char) : List Char :=
  l.drop (l.length - n)

/-! ### JS 32-bit hash (`filter.js` `getMessageFingerprint`) -/

/-- Coerce an integer into the signed 32-bit range, as JS `x & x` and the
32-bit shift operators do. -/
def toInt32 (n : Int) : Int :=
  (n + 2147483648) % 4294967296 - 2147483648

/-- One step of the Java-`String.hashCode`-style loop:
`hash = ((hash << 5) - hash) + charCode; hash = hash & hash`. -/
def hashStep (hash : Int) (c : Char) : Int :=
  toInt32 (toInt32 (hash * 32) - hash + c.toNat)

/-- The full 32-bit string hash of `getMessageFingerprint`. -/
def jsHash (l : List Char) : Int :=
  l.foldl hashStep 0

/-- Digit character for base-36 output (`0`-`9` then `a`-`z`), as JS
`Number.prototype.toString(36)` uses. -/
def base36Char (d : Nat) : Char :=
  if d < 10 then Char.ofNat (48 + d) else Char.ofNat (87 + d)

/-- Fuel-indexed base-36 digits; `fuel = n + 1` always suffices since the
argument shrinks by a factor of 36 each step. -/
def toBase36Aux : Nat → Nat → List Char
  | 0, _ => []
  | fuel + 1, n =>
    if n < 36 then [base36Char n]
    else toBase36Aux fuel (n / 36) ++ [base36Char (n % 36)]

/-- JS `Math.abs(hash).toString(36)` for a non-negative argument. -/
def toBase36 (n : Nat) : String :=
  String.mk (toBase36Aux (n + 1) n)

/-! ### Fingerprint engine (`filter.js` lines 393–419) -/

/-- The normalization chain of `getMessageFingerprint` (before the 300-char
truncation): lowercase, collapse whitespace, strip `[^\w\s]`, replace
digit runs of length ≥ 10 by `PHONE`, trim. -/
def fpNormalize (l : List Char) : List Char :=
  trimJs (replaceLongDigits ((collapseWs (l.map jsToLower)).filter
    (fun c => isWordChar c || isSpaceJs c)))

/-- `getMessageFingerprint(text, messageId, timestamp)` of `filter.js`.
The unused `messageId` parameter is dropped.  `timestamp` is `Option Int`
(`none` models JS `null`); the JS expression `timestamp || Date.now()`
falls back to the wall clock both for `null` and for `0`, so the wall
clock is the explicit argument `dateNow`. -/
def getMessageFingerprint (text : String) (timestamp : Option Int) (dateNow : Int) : String :=
  if text = "" then ""
  else
    let normalized := (fpNormalize text.toList).take 300
    let textHash := toBase36 (jsHash normalized).natAbs
    let now := match timestamp with
      | some t => if t = 0 then dateNow else t
      | none => dateNow
    let timeWindow := now / 300000
    "fp-" ++ textHash ++ "-" ++ toString timeWindow

/-- The fingerprint as actually computed by the intake pipeline
(`index.js` lines 318–319): `handleMessage` first computes
`timeBucket = Math.floor(messageTimestampMs / 300000)` and then calls
`getMessageFingerprint(text, null, timeBucket)`. -/
def intakeFingerprint (text : String) (messageTimestampMs : Int) (dateNow : Int) : String :=
  getMessageFingerprint text (some (messageTimestampMs / 300000)) dateNow

/-! ### Claims C1 and C10 -/

/-- Claim C1 (refuted; the code divides by 300000 twice): the message
timestamps 300000 ms and 600000 ms lie in different 5-minute buckets
(bucket 1 and bucket 2), yet the intake pipeline computes the same
fingerprint for the same non-empty text at both timestamps, and the
fingerprint computed at 300000 ms is not
`"fp-" ++ hash32(normalize(text)) ++ "-" ++ floor(timestamp/300000)`
as the claim asserts (its bucket suffix is `0`, not `1`). -/
theorem fingerprint_bucket_collapse :
    (300000 : Int) / 300000 ≠ (600000 : Int) / 300000
    ∧ intakeFingerprint "taxi to delhi 9876543210" 300000 7 =
      intakeFingerprint "taxi to delhi 9876543210" 600000 7
    ∧ intakeFingerprint "taxi to delhi 9876543210" 300000 7 ≠
      "fp-" ++ toBase36 (jsHash ((fpNormalize "taxi to delhi 9876543210".toList).take 300)).natAbs
        ++ "-" ++ toString ((300000 : Int) / 300000) := by
  refine ⟨by decide, by decide, by decide⟩

/-- Claim C10 (counterexample to the unrestricted claim): the empty text
and the text `"."` have equal normalizations (both empty, so they agree
on their first 300 characters), yet with equal time-bucket arguments
their fingerprints differ, because `getMessageFingerprint` returns `""`
for a falsy text before normalizing. -/
theorem fingerprint_truncation_counterexample :
    (fpNormalize "".toList).take 300 = (fpNormalize ".".toList).take 300
    ∧ getMessageFingerprint "" (some 1) 0 ≠ getMessageFingerprint "." (some 1) 0 := by
  refine ⟨by decide, by decide⟩

/-- Claim C10 (amended: both texts non-empty): for every two non-empty
texts whose normalizations agree on their first 300 characters, and equal
time-bucket arguments (and the same wall clock for the `|| Date.now()`
fallback), the fingerprints are equal — text beyond the 300th normalized
character never influences the fingerprint. -/
theorem fingerprint_truncation_nonempty (t1 t2 : String) (ts : Option Int) (dn : Int)
    (h1 : t1 ≠ "") (h2 : t2 ≠ "")
    (h : (fpNormalize t1.toList).take 300 = (fpNormalize t2.toList).take 300) :
    getMessageFingerprint t1 ts dn = getMessageFingerprint t2 ts dn := by
  simp only [getMessageFingerprint, if_neg h1, if_neg h2, h]

/-- Witness for C10: two concrete 301-character texts agreeing on their
first 300 normalized characters and differing afterwards receive the same
fingerprint. -/
theorem fingerprint_truncation_nonempty_witness :
    getMessageFingerprint (String.mk (List.replicate 301 'a')) (some 5) 0 =
    getMessageFingerprint (String.mk (List.replicate 300 'a' ++ ['b'])) (some 5) 0 :=
  fingerprint_truncation_nonempty _ _ _ _ (by decide) (by decide) (by decide)

/-! ### A small backtracking regex engine

The source relies on a handful of JS regular expressions whose quantifiers
all range over single-character classes.  `reMatches` enumerates, for a
pattern and an input suffix, every way the pattern can match a prefix of
the suffix, in standard backtracking priority order (alternation tries the
left branch first, greedy quantifiers try longest first, lazy quantifiers
shortest first).  The regex result is the first entry; `reSearchAux`
scans start positions left to right, as JS `match`/`test` do. -/

/-- Regex AST: all quantifiers range over a character class `p`.
`rep p lo hi` is greedy `{lo,hi}` (`hi = none` for unbounded);
`plusLazy p` is `+?`; `wb` is `\b`; `eos` is `$`;
`group i r` captures group `i`. -/
inductive RE where
  | eps
  | pred (p : Char → Bool)
  | cat (r1 r2 : RE)
  | alt (r1 r2 : RE)
  | rep (p : Char → Bool) (lo : Nat) (hi : Option Nat)
  | plusLazy (p : Char → Bool)
  | eos
  | wb
  | group (i : Nat) (r : RE)

/-- Length of the maximal prefix of `l` whose characters satisfy `p`. -/
def runLen (p : Char → Bool) : List Char → Nat
  | [] => 0
  | c :: t => if p c then runLen p t + 1 else 0

/-- All matches of `r` against a prefix of `s`, as
(consumed length, captured groups) pairs in backtracking priority order.
`prev` is the character just before `s` (for `\b`). -/
def reMatches : RE → Option Char → List Char → List (Nat × List (Nat × List Char))
  | .eps, _, _ => [(0, [])]
  | .pred _, _, [] => []
  | .pred p, _, c :: _ => if p c then [(1, [])] else []
  | .cat r1 r2, prev, s =>
    (reMatches r1 prev s).flatMap fun m1 =>
      let prev2 := if m1.1 = 0 then prev else s.get? (m1.1 - 1)
      (reMatches r2 prev2 (s.drop m1.1)).map fun m2 => (m1.1 + m2.1, m1.2 ++ m2.2)
  | .alt r1 r2, prev, s => reMatches r1 prev s ++ reMatches r2 prev s
  | .rep p lo hi, _, s =>
    let m := runLen p s
    let top := match hi with | some h => min h m | none => m
    if lo ≤ top then (List.range (top + 1 - lo)).map (fun i => (top - i, [])) else []
  | .plusLazy p, _, s =>
    (List.range (runLen p s)).map (fun i => (i + 1, []))
  | .eos, _, s => if s.isEmpty then [(0, [])] else []
  | .wb, prev, s =>
    let left := match prev with | some c => isWordChar c | none => false
    let right := match s with | c :: _ => isWordChar c | [] => false
    if left != right then [(0, [])] else []
  | .group i r, prev, s => (reMatches r prev s).map fun m => (m.1, (i, s.take m.1) :: m.2)

/-- Leftmost match: try the pattern at each start position in turn and
return the captures of the first (highest-priority) match found. -/
def reSearchAux (r : RE) : Option Char → List Char → Option (List (Nat × List Char))
  | prev, s =>
    match reMatches r prev s with
    | m :: _ => some m.2
    | [] =>
      match s with
      | [] => none
      | c :: t => reSearchAux r (some c) t

/-- JS `RegExp.prototype.test`. -/
def reTest (r : RE) (s : List Char) : Bool :=
  (reSearchAux r none s).isSome

/-- Captured group `k` of the leftmost match (JS `match()[k]`). -/
def reCaptured (r : RE) (k : Nat) (s : List Char) : Option (List Char) :=
  match reSearchAux r none s with
  | some caps => (caps.find? (fun g => g.1 = k)).map (fun g => g.2)
  | none => none

/-- Literal character sequence as a regex. -/
def reLit (s : List Char) : RE :=
  s.foldr (fun c acc => .cat (.pred (fun x => x == c)) acc) .eps

/-- Optional single character (`x?`, greedy). -/
def reOptChar (c : Char) : RE :=
  .alt (.pred (fun x => x == c)) .eps

/-- Greedy star over a character class (`[..]*`). -/
def reStar (p : Char → Bool) : RE := .rep p 0 none

/-- Greedy plus over a character class (`[..]+`). -/
def rePlus (p : Char → Bool) : RE := .rep p 1 none

/-- JS `.` (anything but a line terminator). -/
def notNewline (c : Char) : Bool :=
  !(c == '\n' || c == '\r' || c.toNat == 0x2028 || c.toNat == 0x2029)

/-- `[a-z\s]`, the class both lazy capture groups of `extractPickupCity`
range over. -/
def azOrSpace (c : Char) : Bool := isAsciiLower c || isSpaceJs c

/-- `[-\s]` from the phone patterns. -/
def dashOrSpace (c : Char) : Bool := c == '-' || isSpaceJs c

/-! ### `filter.js` — `normalizeText`, alias table, city extraction -/

/-- The emoji / variation-selector code-point ranges that `normalizeText`
strips (eight `replace(..., "")` calls). -/
def inEmojiRanges (c : Char) : Bool :=
  (0x1F600 ≤ c.toNat && c.toNat ≤ 0x1F64F) ||
  (0x1F300 ≤ c.toNat && c.toNat ≤ 0x1F5FF) ||
  (0x1F680 ≤ c.toNat && c.toNat ≤ 0x1F6FF) ||
  (0x1F1E0 ≤ c.toNat && c.toNat ≤ 0x1F1FF) ||
  (0x2600 ≤ c.toNat && c.toNat ≤ 0x26FF) ||
  (0x2700 ≤ c.toNat && c.toNat ≤ 0x27BF) ||
  (0xFE00 ≤ c.toNat && c.toNat ≤ 0xFE0F) ||
  (0x1F900 ≤ c.toNat && c.toNat ≤ 0x1F9FF)

/-- `normalizeText` of `filter.js`: strip emoji ranges, collapse
whitespace, trim, lowercase.  (`normalizeText("")` is `""`; the falsy
guard needs no separate branch on lists.) -/
def normalizeText (l : List Char) : List Char :=
  (trimJs (collapseWs (l.filter (fun c => !(inEmojiRanges c))))).map jsToLower

/-- The city alias table of `getCityAliasMap`, in source order. -/
def cityAliasMap : List (String × String) :=
  [("dli", "Delhi"), ("dehli", "Delhi"), ("dilli", "Delhi"), ("new delhi", "Delhi"),
   ("t3", "Delhi"), ("t2", "Delhi"), ("t1", "Delhi"), ("terminal 3", "Delhi"),
   ("terminal 2", "Delhi"), ("terminal 1", "Delhi"), ("igi", "Delhi"),
   ("igi airport", "Delhi"), ("delhi airport", "Delhi"), ("isbt delhi", "Delhi"),
   ("kashmere gate", "Delhi"), ("kashmiri gate", "Delhi"), ("dwarka", "Delhi"),
   ("connaught place", "Delhi"), ("aerocity", "Delhi"),
   ("ggn", "Gurgaon"), ("gurgoan", "Gurgaon"), ("gurugram", "Gurgaon"),
   ("grg", "Gurgaon"), ("cyber city", "Gurgaon"), ("golf course road", "Gurgaon"),
   ("sohna", "Gurgaon"), ("manesar", "Gurgaon"),
   ("noida sector", "Noida"), ("nioda", "Noida"), ("greater noida", "Noida"),
   ("faridabad", "Noida"), ("ghaziabad", "Noida"),
   ("amb", "Ambala"), ("ambl", "Ambala"), ("ambala cantt", "Ambala"),
   ("ambala city", "Ambala"), ("ambala cantonment", "Ambala"),
   ("ambala railway station", "Ambala"),
   ("ptl", "Patiala"), ("pti", "Patiala"), ("patiyala", "Patiala"),
   ("sirhind", "Patiala"), ("rajpura", "Patiala"), ("nabha", "Patiala"),
   ("samana", "Patiala"),
   ("chd", "Chandigarh"), ("chandi", "Chandigarh"), ("chandhigarh", "Chandigarh"),
   ("chandigarh sector", "Chandigarh"), ("sector", "Chandigarh"),
   ("sec 17", "Chandigarh"), ("sec 35", "Chandigarh"), ("isbt 17", "Chandigarh"),
   ("isbt 43", "Chandigarh"), ("panchkula", "Chandigarh"),
   ("isbt chandigarh", "Chandigarh"), ("chandigarh airport", "Chandigarh"),
   ("zkp", "Zirakpur"), ("zirkpur", "Zirakpur"), ("jerkpur", "Zirakpur"),
   ("zirkapur", "Zirakpur"), ("dera basi", "Zirakpur"), ("dera bassi", "Zirakpur"),
   ("derabassi", "Zirakpur"), ("dhakoli", "Zirakpur"),
   ("mhl", "Mohali"), ("mohali sector", "Mohali"),
   ("sahibzada ajit singh nagar", "Mohali"), ("sas nagar", "Mohali"),
   ("kharar", "Mohali"), ("khrar", "Mohali"), ("kahrar", "Mohali"),
   ("kharad", "Mohali"), ("kurali", "Mohali"), ("mohali phase", "Mohali"),
   ("phase 11", "Mohali"), ("phase 10", "Mohali"), ("mohali airport", "Mohali"),
   ("landran", "Mohali"),
   ("asr", "Amritsar"), ("amritser", "Amritsar"), ("amritsarr", "Amritsar"),
   ("golden temple", "Amritsar"), ("wagah border", "Amritsar"),
   ("amritsar airport", "Amritsar"),
   ("ldh", "Ludhiana"), ("ludhiyana", "Ludhiana"), ("ludhianaa", "Ludhiana"),
   ("jld", "Jalandhar"), ("jalandar", "Jalandhar"), ("jullundur", "Jalandhar"),
   ("phagwara", "Jalandhar")]

/-- `isConfiguredCity(word, cities)` (the closure inside
`extractPickupCity`): lowercase and trim the word, look for an exact
canonical-name match first, then an alias-table hit whose target city is
configured. -/
def isConfiguredCity (cities : List String) (word : List Char) : Option String :=
  let wordLower := trimJs (word.map jsToLower)
  match cities.find? (fun city => city.toList.map jsToLower == wordLower) with
  | some city => some city
  | none =>
    match cityAliasMap.find? (fun kv => kv.1.toList == wordLower) with
    | some kv => if cities.contains kv.2 then some kv.2 else none
    | none => none

/-- JS `str.split(/\s+/)`: worker.  `inSep` records that the previous
character closed a token (so further whitespace is absorbed into the same
separator); a trailing separator yields a trailing empty token, exactly as
in JS. -/
def splitWsCore (inSep : Bool) (cur : List Char) : List Char → List (List Char)
  | [] => if inSep then [[]] else [cur.reverse]
  | c :: t =>
    if isSpaceJs c then
      if inSep then splitWsCore true [] t
      else cur.reverse :: splitWsCore true [] t
    else splitWsCore false (c :: cur) t

/-- JS `str.split(/\s+/)`. -/
def splitWsRuns (l : List Char) : List (List Char) :=
  splitWsCore false [] l

/-- `match[1].trim().split(/\s+/)` as used on the captured segments. -/
def jsTrimSplit (l : List Char) : List (List Char) :=
  splitWsRuns (trimJs l)

/-- The word-window scan shared by all four patterns of
`extractPickupCity`: at each index try the single word, then (when the
window allows) the two-word join, then the three-word join, before
advancing — exactly the loop order of the source. -/
def scanWindows (cities : List String) (maxWin : Nat) : List (List Char) → Option String
  | [] => none
  | w :: rest =>
    match isConfiguredCity cities w with
    | some c => some c
    | none =>
      match (match rest with
             | w2 :: _ => if 2 ≤ maxWin then isConfiguredCity cities (w ++ ' ' :: w2) else none
             | [] => none) with
      | some c => some c
      | none =>
        match (match rest with
               | w2 :: w3 :: _ =>
                 if 3 ≤ maxWin then isConfiguredCity cities (w ++ ' ' :: w2 ++ ' ' :: w3)
                 else none
               | _ => none) with
        | some c => some c
        | none => scanWindows cities maxWin rest

/-- `/\bfrom\s+([a-z\s]+?)\s+to\s+([a-z\s]+?)(?:\s|$|[^a-z])/i`
(the `i` flag is irrelevant: the input is already lowercased). -/
def fromToPattern : RE :=
  .cat .wb (.cat (reLit "from".toList)
    (.cat (rePlus isSpaceJs)
      (.cat (.group 1 (.plusLazy azOrSpace))
        (.cat (rePlus isSpaceJs)
          (.cat (reLit "to".toList)
            (.cat (rePlus isSpaceJs)
              (.cat (.group 2 (.plusLazy azOrSpace))
                (.alt (.pred isSpaceJs) (.alt .eos (.pred (fun c => !isAsciiLower c)))))))))))

/-- `/\b([a-z\s]+?)\s+to\s+([a-z\s]+?)(?:\s|$|[^a-z])/i`. -/
def toPattern : RE :=
  .cat .wb (.cat (.group 1 (.plusLazy azOrSpace))
    (.cat (rePlus isSpaceJs)
      (.cat (reLit "to".toList)
        (.cat (rePlus isSpaceJs)
          (.cat (.group 2 (.plusLazy azOrSpace))
            (.alt (.pred isSpaceJs) (.alt .eos (.pred (fun c => !isAsciiLower c)))))))))

/-- `/\bpickup\s*:?\s*([a-z\s]+?)(?:\s*drop|\s*to|\s*-|\s*phone|\s*\d|$)/i`. -/
def pickupPattern : RE :=
  .cat .wb (.cat (reLit "pickup".toList)
    (.cat (reStar isSpaceJs)
      (.cat (reOptChar ':')
        (.cat (reStar isSpaceJs)
          (.cat (.group 1 (.plusLazy azOrSpace))
            (.alt (.cat (reStar isSpaceJs) (reLit "drop".toList))
              (.alt (.cat (reStar isSpaceJs) (reLit "to".toList))
                (.alt (.cat (reStar isSpaceJs) (reLit "-".toList))
                  (.alt (.cat (reStar isSpaceJs) (reLit "phone".toList))
                    (.alt (.cat (reStar isSpaceJs) (.pred Char.isDigit)) .eos))))))))))

/-- `extractPickupCity(text, cities)` of `filter.js`: priority patterns
1–3 each commit structurally (their branch returns even when no city is
found in the captured segment); pattern 4 is the global word scan. -/
def extractPickupCity (text : String) (cities : List String) : Option String :=
  if text = "" then none
  else if cities.isEmpty then none
  else
    let normalized := normalizeText text.toList
    match reSearchAux fromToPattern none normalized with
    | some caps =>
      scanWindows cities 3 (jsTrimSplit (((caps.find? (fun g => g.1 = 1)).map
        (fun g => g.2)).getD []))
    | none =>
      match reSearchAux toPattern none normalized with
      | some caps =>
        scanWindows cities 2 (jsTrimSplit (((caps.find? (fun g => g.1 = 1)).map
          (fun g => g.2)).getD []))
      | none =>
        match reSearchAux pickupPattern none normalized with
        | some caps =>
          scanWindows cities 2 ((jsTrimSplit (((caps.find? (fun g => g.1 = 1)).map
            (fun g => g.2)).getD [])).take 3)
        | none => scanWindows cities 3 (splitWsRuns normalized)

/-- `extractFirstCity` — alias for `extractPickupCity`. -/
def extractFirstCity (text : String) (cities : List String) : Option String :=
  extractPickupCity text cities

/-! ### `filter.js` — phone detection, blocked numbers, request test -/

/-- The twelve `phonePatterns` of `hasPhoneNumber`, in source order. -/
def phonePatterns : List RE :=
  [ .rep Char.isDigit 10 (some 10),
    .cat (.rep Char.isDigit 5 (some 5)) (.cat (reStar isSpaceJs) (.rep Char.isDigit 5 (some 5))),
    .cat (.rep Char.isDigit 5 (some 5)) (.cat (.pred (fun c => c == '-')) (.rep Char.isDigit 5 (some 5))),
    .cat (reOptChar '+') (.cat (.rep Char.isDigit 2 (some 2)) (.cat (reStar isSpaceJs) (.rep Char.isDigit 10 (some 10)))),
    .cat (reOptChar '+') (.cat (.rep Char.isDigit 2 (some 2)) (.cat (.pred dashOrSpace) (.cat (.rep Char.isDigit 5 (some 5)) (.cat (.pred dashOrSpace) (.rep Char.isDigit 5 (some 5)))))),
    .cat (.rep Char.isDigit 3 (some 3)) (.cat (.rep dashOrSpace 0 (some 1)) (.cat (.rep Char.isDigit 3 (some 3)) (.cat (.rep dashOrSpace 0 (some 1)) (.rep Char.isDigit 4 (some 4))))),
    .cat (.pred (fun c => c == '(')) (.cat (.rep Char.isDigit 3 (some 3)) (.cat (.pred (fun c => c == ')')) (.cat (reStar isSpaceJs) (.cat (.rep Char.isDigit 3 (some 3)) (.cat (.rep dashOrSpace 0 (some 1)) (.rep Char.isDigit 4 (some 4))))))),
    .cat (.rep Char.isDigit 2 (some 4)) (.cat (.pred dashOrSpace) (.rep Char.isDigit 6 (some 8))),
    .cat (.rep Char.isDigit 4 (some 4)) (.cat (.pred dashOrSpace) (.rep Char.isDigit 6 (some 6))),
    .cat (.rep Char.isDigit 2 (some 2)) (.cat (.pred dashOrSpace) (.rep Char.isDigit 8 (some 8))),
    .cat (.rep Char.isDigit 3 (some 3)) (.cat (.pred (fun c => c == '-')) (.cat (.rep Char.isDigit 3 (some 3)) (.cat (.pred (fun c => c == '-')) (.rep Char.isDigit 4 (some 4))))),
    .cat .wb (.cat (.rep Char.isDigit 10 (some 12)) .wb) ]

/-- `hasPhoneNumber(text)` of `filter.js`: at least 8 digits overall and
at least one shape match.  (Stripping `[\s\-\(\)\+\.]` before counting
`\d` matches is the same as counting the digits of `text` directly.) -/
def hasPhoneNumber (text : String) : Bool :=
  if text = "" then false
  else
    let digitCount := (text.toList.filter Char.isDigit).length
    if digitCount < 8 then false
    else phonePatterns.any (fun p => reTest p text.toList)

/-- `containsBlockedNumber(text, blockedNumbers)` of `filter.js`:
digit-only substring match for each blocked number, with and without the
`91` country prefix. -/
def containsBlockedNumber (text : String) (blockedNumbers : List String) : Bool :=
  if text = "" || blockedNumbers.isEmpty then false
  else
    let normalizedText := text.toList.filter Char.isDigit
    blockedNumbers.any fun b =>
      let nb := b.toList.filter Char.isDigit
      if nb.isEmpty then false
      else containsSub nb normalizedText || containsSub ('9' :: '1' :: nb) normalizedText

/-- The five `ROUTE_PATTERNS` of `filter.js`, in source order. -/
def routePatterns : List RE :=
  [ .cat .wb (.cat (reLit "from".toList) (.cat .wb (.cat (rePlus notNewline) (.cat .wb (.cat (reLit "to".toList) .wb))))),
    .cat .wb (.cat (reLit "to".toList) (.cat .wb (.cat (rePlus notNewline) (.cat .wb (.cat (reLit "from".toList) .wb))))),
    .cat .wb (.cat (rePlus isWordChar) (.cat (rePlus isSpaceJs) (.cat (reLit "to".toList) (.cat (rePlus isSpaceJs) (rePlus isWordChar))))),
    reLit "pickup".toList,
    reLit "drop".toList ]

/-- `isTaxiRequest(text, keywords, ignoreList, blockedNumbers)` of
`filter.js`: blocked-number backstop, raw-lowercase ignore list, then
keyword inclusion in the normalized text or a route-shape pattern hit.
(`hasKeyword` and `hasRoute` are both bound before the final `||` in the
source; `||` here differs only in evaluation cost, not value.) -/
def isTaxiRequest (text : String) (keywords ignoreList blockedNumbers : List String) : Bool :=
  if text = "" then false
  else
    let normalized := normalizeText text.toList
    let originalLower := text.toList.map jsToLower
    if !blockedNumbers.isEmpty && containsBlockedNumber text blockedNumbers then false
    else if ignoreList.any (fun w => containsSub (w.toList.map jsToLower) originalLower) then false
    else
      let hasKeyword := keywords.any (fun k => containsSub (k.toList.map jsToLower) normalized)
      let hasRoute := routePatterns.any (fun r => reTest r normalized)
      hasKeyword || hasRoute

/-! ### Claim C5 -/

/-- Claim C5: on `"from Delhi to Chandigarh"` with configured cities
`["Chandigarh"]`, pattern 1 (`from X to Y`) matches structurally and only
the `X` segment is scanned, so `extractPickupCity` returns `none` — even
though the global word scan (pattern 4) over the same normalized text
would have found `Chandigarh`, which is configured. -/
theorem structural_commitment :
    extractPickupCity "from Delhi to Chandigarh" ["Chandigarh"] = none
    ∧ scanWindows ["Chandigarh"] 3 (splitWsRuns (normalizeText "from Delhi to Chandigarh".toList)) =
      some "Chandigarh"
    ∧ "Chandigarh" ∈ ["Chandigarh"] := by
  refine ⟨by decide, by decide, by decide⟩

/-! ### Insertion-ordered maps and sets (JS `Map` / `Set` on lists) -/

/-- JS `Map.prototype.get` (first entry with the key). -/
def mapLookup {β : Type} (m : List (String × β)) (k : String) : Option β :=
  match m.find? (fun kv => kv.1 == k) with
  | some kv => some kv.2
  | none => none

/-- JS `Map.prototype.set`: update in place when present (insertion order
is preserved), append otherwise. -/
def mapSet {β : Type} (m : List (String × β)) (k : String) (v : β) : List (String × β) :=
  if (mapLookup m k).isSome then m.map (fun kv => if kv.1 = k then (k, v) else kv)
  else m ++ [(k, v)]

/-- JS `Map.prototype.delete`. -/
def mapDelete {β : Type} (m : List (String × β)) (k : String) : List (String × β) :=
  m.filter (fun kv => kv.1 ≠ k)

/-- JS `Set.prototype.add`: no-op when present, append otherwise. -/
def setAdd (l : List String) (x : String) : List String :=
  if x ∈ l then l else l ++ [x]

/-- `[...new Set(array)]` — worker; `seen` holds the elements already
emitted. -/
def jsSetDedupAux {α : Type} [DecidableEq α] (seen : List α) : List α → List α
  | [] => []
  | a :: t => if a ∈ seen then jsSetDedupAux seen t else a :: jsSetDedupAux (a :: seen) t

/-- `[...new Set(array)]`: first-occurrence deduplication. -/
def jsSetDedup {α : Type} [DecidableEq α] (l : List α) : List α :=
  jsSetDedupAux [] l

theorem mem_jsSetDedupAux {α : Type} [DecidableEq α] (x : α) :
    ∀ (l seen : List α), x ∈ jsSetDedupAux seen l ↔ x ∈ l ∧ x ∉ seen := by
  intro l
  induction l with
  | nil => intro seen; simp [jsSetDedupAux]
  | cons a t ih =>
    intro seen
    by_cases ha : a ∈ seen
    · simp only [jsSetDedupAux, if_pos ha, ih, List.mem_cons]
      constructor
      · rintro ⟨hx, hs⟩; exact ⟨Or.inr hx, hs⟩
      · rintro ⟨hx | hx, hs⟩
        · exact absurd (hx ▸ ha) hs
        · exact ⟨hx, hs⟩
    · simp only [jsSetDedupAux, if_neg ha, List.mem_cons, ih]
      constructor
      · rintro (hx | ⟨hx, hs⟩)
        · exact ⟨Or.inl hx, hx ▸ ha⟩
        · simp at hs; exact ⟨Or.inr hx, hs.2⟩
      · rintro ⟨hx | hx, hs⟩
        · exact Or.inl hx
        · by_cases hxa : x = a
          · exact Or.inl hxa
          · exact Or.inr ⟨hx, by simp [hxa, hs]⟩

theorem nodup_jsSetDedupAux {α : Type} [DecidableEq α] :
    ∀ (l seen : List α), (jsSetDedupAux seen l).Nodup := by
  intro l
  induction l with
  | nil => intro seen; simp [jsSetDedupAux]
  | cons a t ih =>
    intro seen
    by_cases ha : a ∈ seen
    · simpa [jsSetDedupAux, if_pos ha] using ih seen
    · simp only [jsSetDedupAux, if_neg ha, List.nodup_cons]
      refine ⟨fun hmem => ?_, ih (a :: seen)⟩
      have := (mem_jsSetDedupAux a t (a :: seen)).1 hmem
      simp at this

theorem toFinset_jsSetDedup {α : Type} [DecidableEq α] (l : List α) :
    (jsSetDedup l).toFinset = l.toFinset := by
  ext x
  simp [jsSetDedup, List.mem_toFinset, mem_jsSetDedupAux]

theorem nodup_jsSetDedup {α : Type} [DecidableEq α] (l : List α) :
    (jsSetDedup l).Nodup :=
  nodup_jsSetDedupAux l []

/-! ### Fisher–Yates shuffle (`router.js` `shuffleArray`) -/

/-- One in-place swap `[arr[i], arr[j]] = [arr[j], arr[i]]`; identity when
either index is out of range (unreachable in the source, where
`j = Math.floor(Math.random() * (i + 1)) ≤ i < length`). -/
def listSwap {α : Type} (l : List α) (i j : Nat) : List α :=
  match l[i]?, l[j]? with
  | some a, some b => (l.set i b).set j a
  | some _, none => l
  | none, _ => l

/-- The loop of `shuffleArray`, indices descending; `r i` is the drawn
index `j` for loop index `i`. -/
def shuffleLoop {α : Type} (r : Nat → Nat) : Nat → List α → List α
  | 0, arr => arr
  | i + 1, arr => shuffleLoop r i (listSwap arr (i + 1) (r (i + 1)))

/-- `shuffleArray` of `router.js` (A3, Fisher–Yates), with the
`Math.random` draws supplied as the oracle `r`. -/
def shuffleArray {α : Type} (r : Nat → Nat) (arr : List α) : List α :=
  shuffleLoop r (arr.length - 1) arr

theorem cons_set_perm {α : Type} (a b : α) :
    ∀ (t : List α) (j : Nat), t[j]? = some b →
      List.Perm (b :: t.set j a) (a :: t) := by
  intro t
  induction t with
  | nil => intro j h; simp at h
  | cons c t' ih =>
    intro j h
    cases j with
    | zero =>
      simp only [List.getElem?_cons_zero, Option.some.injEq] at h
      subst h
      simpa using List.Perm.swap a c t'
    | succ j' =>
      simp only [List.getElem?_cons_succ] at h
      have e1 : (c :: t').set (j' + 1) a = c :: t'.set j' a := by simp
      rw [e1]
      exact (List.Perm.swap c b _).trans (((ih j' h).cons c).trans (List.Perm.swap a c t'))

theorem listSwap_perm {α : Type} :
    ∀ (l : List α) (i j : Nat), List.Perm (listSwap l i j) l := by
  intro l
  induction l with
  | nil => intro i j; simp [listSwap]
  | cons c t ih =>
    intro i j
    cases i with
    | zero =>
      cases j with
      | zero => simp [listSwap]
      | succ j' =>
        unfold listSwap
        cases h : t[j']? with
        | none => simp [h]
        | some b =>
          simp only [List.getElem?_cons_zero, List.getElem?_cons_succ, h]
          have e : ((c :: t).set 0 b).set (j' + 1) c = b :: t.set j' c := by simp
          rw [e]
          exact cons_set_perm c b t j' h
    | succ i' =>
      cases j with
      | zero =>
        unfold listSwap
        cases h : t[i']? with
        | none => simp [h]
        | some a =>
          simp only [List.getElem?_cons_succ, List.getElem?_cons_zero, h]
          have e : ((c :: t).set (i' + 1) c).set 0 a = a :: t.set i' c := by simp
          rw [e]
          exact cons_set_perm c a t i' h
      | succ j' =>
        unfold listSwap
        cases h1 : t[i']? with
        | none => simp [h1]
        | some a =>
          cases h2 : t[j']? with
          | none => simp [h1, h2]
          | some b =>
            simp only [List.getElem?_cons_succ, h1, h2]
            have e : ((c :: t).set (i' + 1) b).set (j' + 1) a = c :: (t.set i' b).set j' a := by
              simp
            rw [e]
            have ht := ih i' j'
            unfold listSwap at ht
            rw [h1, h2] at ht
            exact ht.cons c

theorem shuffleLoop_perm {α : Type} (r : Nat → Nat) :
    ∀ (i : Nat) (arr : List α), List.Perm (shuffleLoop r i arr) arr := by
  intro i
  induction i with
  | zero => intro arr; simp [shuffleLoop]
  | succ i' ih =>
    intro arr
    exact (ih (listSwap arr (i' + 1) (r (i' + 1)))).trans (listSwap_perm arr (i' + 1) (r (i' + 1)))

theorem shuffleArray_perm {α : Type} (r : Nat → Nat) (arr : List α) :
    List.Perm (shuffleArray r arr) arr :=
  shuffleLoop_perm r (arr.length - 1) arr

/-! ### Constants (`globalDefaults.js`) -/

/-- `RATE_LIMITS.HOURLY`. -/
def RATE_LIMITS_HOURLY : Nat := 100

/-- `RATE_LIMITS.DAILY`. -/
def RATE_LIMITS_DAILY : Nat := 1000

/-- `CACHE.MAX_FINGERPRINTS`. -/
def MAX_FINGERPRINTS : Nat := 2000

/-- `Math.floor(CACHE.MAX_FINGERPRINTS * CACHE.CLEANUP_TARGET_RATIO)` =
`Math.floor(2000 * 0.8)`, precomputed (the float product rounds to
exactly 1600). -/
def CLEANUP_TARGET_SIZE : Nat := 1600

/-- `CIRCUIT_BREAKER.MAX_FAILURES`. -/
def MAX_FAILURES : Nat := 10

/-- `SEND_COOLDOWN_MS`. -/
def SEND_COOLDOWN_MS : Int := 1000

/-! ### Shared configuration and statistics records -/

/-- The merged read-only configuration fields the embedded pipeline
reads.  The `GLOBAL_CONFIG` limits consumed by `index.js`
(`minMessageLength`, the reconnect gate windows, the replay/fingerprint
cache bounds) are fields here because `globalConfig.js` is not part of
the source snapshot; `cleanupTargetSize` stands for
`Math.floor(maxFingerprintCache * cleanupTargetRatio)`. -/
structure Config where
  botPhone : String
  sourceGroupIds : List String
  freeCommonGroupId : String
  paidCommonGroupId : List String
  configuredCities : List String
  cityTargetGroups : List (String × String)
  blockedPhoneNumbers : List String
  requestKeywords : List String
  ignoreIfContains : List String
  minMessageLength : Nat
  strictWindowDuration : Int
  strictAgeMs : Int
  maxReplayIds : Nat
  maxFingerprintCache : Nat
  cleanupTargetSize : Nat
deriving DecidableEq

/-- The `stats` counter object of `index.js` (shared with the router via
`ctx.stats`), together with the counters the router itself increments. -/
structure Stats where
  totalProcessed : Nat := 0
  duplicatesSkipped : Nat := 0
  replayIdsSkipped : Nat := 0
  rejectedNoPhone : Nat := 0
  rejectedNotTaxi : Nat := 0
  rejectedTooShort : Nat := 0
  rejectedEmptyBody : Nat := 0
  rejectedFromMe : Nat := 0
  rejectedBotSender : Nat := 0
  rejectedBlockedNumber : Nat := 0
  rejectedByReconnectAgeGate : Nat := 0
  rejectedNotMonitored : Nat := 0
  rejectedRateLimit : Nat := 0
  rejectedTooOld : Nat := 0
  sendSuccesses : Nat := 0
  sendFailures : Nat := 0
  reconnectCount : Nat := 0
  pathARouted : Nat := 0
  pathBRouted : Nat := 0
  cryptoErrors : Nat := 0
  racePrevented : Nat := 0
  pathAProcessed : Nat := 0
  pathBProcessed : Nat := 0
  totalMessagesSent : Nat := 0
  humanPausesTriggered : Nat := 0
deriving DecidableEq

/-! ### Circuit breaker (`router.js` lines 99–121) -/

/-- `ctx.circuitBreaker`.  `resetScheduled` models the pending
`setTimeout` that will later close the breaker and zero the count. -/
structure BreakerState where
  failureCount : Nat := 0
  isOpen : Bool := false
  lastFailureTime : Int := 0
  resetScheduled : Bool := false
deriving DecidableEq

/-- `handleSendFailure(ctx)`: count the failure; at `MAX_FAILURES`, open
the breaker (once) and schedule the reset timer. -/
def handleSendFailure (now : Int) (b : BreakerState) : BreakerState :=
  let b := { b with failureCount := b.failureCount + 1, lastFailureTime := now }
  if MAX_FAILURES ≤ b.failureCount then
    if b.isOpen = false then { b with isOpen := true, resetScheduled := true }
    else b
  else b

/-- `handleSendSuccess(ctx)`: each success decrements the failure count
(floor 0). -/
def handleSendSuccess (b : BreakerState) : BreakerState :=
  if 0 < b.failureCount then { b with failureCount := b.failureCount - 1 } else b

/-- The breaker reset timer firing (`setTimeout` body in
`handleSendFailure`): close and zero. -/
def breakerReset (b : BreakerState) : BreakerState :=
  { b with isOpen := false, failureCount := 0, resetScheduled := false }

/-! ### Rate limiter (`router.js` `checkRateLimit`) -/

/-- `ctx.messageCount`. -/
structure MessageCount where
  hourly : Nat := 0
  daily : Nat := 0
  lastHourReset : Int := 0
  lastDayReset : Int := 0
deriving DecidableEq

/-- `checkRateLimit(ctx)`: fixed-window counters with lazy reset, then
the ceiling test.  Returns the (possibly reset) counters and the verdict. -/
def checkRateLimit (now : Int) (mc0 : MessageCount) : MessageCount × Bool :=
  let mc1 := if 3600000 < now - mc0.lastHourReset
    then { mc0 with hourly := 0, lastHourReset := now } else mc0
  let mc2 := if 86400000 < now - mc1.lastDayReset
    then { mc1 with daily := 0, lastDayReset := now } else mc1
  (mc2, decide (mc2.hourly < RATE_LIMITS_HOURLY) && decide (mc2.daily < RATE_LIMITS_DAILY))

/-! ### Delivery scheduler (`router.js` `sendToMultipleGroupsSequential`) -/

/-- Outcome of one `sock.sendMessage` attempt, abstracting the
timeout/retry flow of the source: `ok` (first send resolves),
`timeoutRetryOk` (timeout, single retry succeeds), `timeoutRetryFail`
(timeout, retry fails), `fail` (non-timeout rejection). -/
inductive SendOutcome where
  | ok
  | timeoutRetryOk
  | timeoutRetryFail
  | fail
deriving DecidableEq

/-- Environment oracle for one loop position: the 15% `Math.random`
hesitation draw (A5) and the send outcome. -/
structure SendStep where
  pause : Bool
  outcome : SendOutcome
deriving DecidableEq

/-- The mutable router context (`ctx`), minus the pieces owned elsewhere. -/
structure RouterCtx where
  stats : Stats
  messageCount : MessageCount
  circuitBreaker : BreakerState
  inFlightSends : List (String × Int)
  fingerprintSet : List String
deriving DecidableEq

/-- The sequential send loop body.  `i` is the loop index (for the
typing/gap distinction and the oracle), `succ` the running success count,
`attempted` the targets on which `sendMessage` has been invoked (most
recent first; reversed on return).  Mirrors the `for` loop of
`sendToMultipleGroupsSequential`, including the mid-loop breaker check
and the cooldown bookkeeping. -/
def sendTargetsLoop (env : Nat → SendStep) (now : Int) :
    List String → Nat → RouterCtx → Nat → List String → RouterCtx × Nat × List String
  | [], _, ctx, succ, attempted => (ctx, succ, attempted.reverse)
  | g :: rest, i, ctx, succ, attempted =>
    if ctx.circuitBreaker.isOpen = true then (ctx, succ, attempted.reverse)
    else
      let ctx1 := if 0 < i ∧ (env i).pause = true then
        { ctx with stats := { ctx.stats with
            humanPausesTriggered := ctx.stats.humanPausesTriggered + 1 } }
        else ctx
      let ctx2 := { ctx1 with inFlightSends := mapSet ctx1.inFlightSends g now }
      match (env i).outcome with
      | .ok =>
        sendTargetsLoop env now rest (i + 1)
          { ctx2 with circuitBreaker := handleSendSuccess ctx2.circuitBreaker,
                      stats := { ctx2.stats with sendSuccesses := ctx2.stats.sendSuccesses + 1 } }
          (succ + 1) (g :: attempted)
      | .timeoutRetryOk =>
        sendTargetsLoop env now rest (i + 1)
          { ctx2 with circuitBreaker := handleSendSuccess ctx2.circuitBreaker,
                      stats := { ctx2.stats with sendSuccesses := ctx2.stats.sendSuccesses + 1 } }
          (succ + 1) (g :: attempted)
      | .timeoutRetryFail =>
        sendTargetsLoop env now rest (i + 1)
          { ctx2 with circuitBreaker := handleSendFailure now ctx2.circuitBreaker,
                      stats := { ctx2.stats with sendFailures := ctx2.stats.sendFailures + 1 },
                      inFlightSends := mapDelete ctx2.inFlightSends g }
          succ (g :: attempted)
      | .fail =>
        sendTargetsLoop env now rest (i + 1)
          { ctx2 with circuitBreaker := handleSendFailure now ctx2.circuitBreaker,
                      stats := { ctx2.stats with sendFailures := ctx2.stats.sendFailures + 1 },
                      inFlightSends := mapDelete ctx2.inFlightSends g }
          succ (g :: attempted)

/-- `sendToMultipleGroupsSequential(targets, text, ctx)`.  Returns
(context, successCount, totalTargets, attempted targets).  The last
component instruments which targets `sendMessage` was invoked on; the
source returns only `{successCount, totalTargets}`. -/
def sendToMultipleGroupsSequential (env : Nat → SendStep) (now : Int)
    (targets : List String) (ctx : RouterCtx) : RouterCtx × Nat × Nat × List String :=
  if ctx.circuitBreaker.isOpen = true then (ctx, 0, targets.length, [])
  else
    let readyTargets := targets.filter (fun g =>
      match mapLookup ctx.inFlightSends g with
      | none => true
      | some lastSend => decide (lastSend = 0) || decide (SEND_COOLDOWN_MS ≤ now - lastSend))
    if readyTargets.isEmpty = true then (ctx, 0, 0, [])
    else
      let r := sendTargetsLoop env now readyTargets 0 ctx 0 []
      (r.1, r.2.1, readyTargets.length, r.2.2)

/-! ### Path A / Path B target construction (`router.js` lines 335–366,
428–456) -/

/-- The city-group resolution shared by both paths: `extractFirstCity`,
then `ctx.config.cityTargetGroups[firstCity]`, pushed only when the
configured id is truthy and non-blank. -/
def resolvedCityGroup (cfg : Config) (text : String) : Option String :=
  match extractFirstCity text cfg.configuredCities with
  | some city =>
    match cfg.cityTargetGroups.find? (fun kv => kv.1 == city) with
    | some kv => if kv.2 ≠ "" ∧ trimJs kv.2.toList ≠ [] then some kv.2 else none
    | none => none
  | none => none

/-- Path A target list after `[...new Set(targets)]`: paid groups, then
the resolved city group (if any), then the free common group,
first-occurrence deduplicated. -/
def pathATargets (cfg : Config) (text : String) : List String :=
  jsSetDedup (cfg.paidCommonGroupId ++ (resolvedCityGroup cfg text).toList ++
    [cfg.freeCommonGroupId])

/-- Path B target list after `[...new Set(targets)]`: paid groups, then
the resolved city group (if any).  The free group is the source and is
not pushed. -/
def pathBTargets (cfg : Config) (text : String) : List String :=
  jsSetDedup (cfg.paidCommonGroupId ++ (resolvedCityGroup cfg text).toList)

/-- `cleanupFingerprintSetIfNeeded(ctx)` (`router.js` lines 130–141):
one-pass trim of the oldest entries down to the target size. -/
def cleanupFingerprintSetIfNeeded (ctx : RouterCtx) : RouterCtx :=
  if MAX_FINGERPRINTS < ctx.fingerprintSet.length then
    { ctx with fingerprintSet :=
        ctx.fingerprintSet.drop (ctx.fingerprintSet.length - CLEANUP_TARGET_SIZE) }
  else ctx

/-- `processPathA(text, sourceGroup, fingerprint, ctx)`: the four gates
(blocked → taxi → phone → rate limit), target build + shuffle, the send
loop, and the success bookkeeping.  `rand` drives the shuffle, `env` the
send loop.  Returns the updated context and `successCount > 0`. -/
def processPathA (cfg : Config) (text : String) (now : Int)
    (rand : Nat → Nat) (env : Nat → SendStep) (ctx : RouterCtx) : RouterCtx × Bool :=
  if containsBlockedNumber text cfg.blockedPhoneNumbers = true then
    ({ ctx with stats := { ctx.stats with
        rejectedBlockedNumber := ctx.stats.rejectedBlockedNumber + 1 } }, false)
  else if isTaxiRequest text cfg.requestKeywords cfg.ignoreIfContains [] = false then
    ({ ctx with stats := { ctx.stats with
        rejectedNotTaxi := ctx.stats.rejectedNotTaxi + 1 } }, false)
  else if hasPhoneNumber text = false then
    ({ ctx with stats := { ctx.stats with
        rejectedNoPhone := ctx.stats.rejectedNoPhone + 1 } }, false)
  else
    let rl := checkRateLimit now ctx.messageCount
    let ctx := { ctx with messageCount := rl.1 }
    if rl.2 = false then
      ({ ctx with stats := { ctx.stats with
          rejectedRateLimit := ctx.stats.rejectedRateLimit + 1 } }, false)
    else
      let uniqueTargets := shuffleArray rand (pathATargets cfg text)
      let send := sendToMultipleGroupsSequential env now uniqueTargets ctx
      let ctx := send.1
      let successCount := send.2.1
      let ctx := if 0 < successCount then
        { ctx with
            messageCount := { ctx.messageCount with
              hourly := ctx.messageCount.hourly + 1,
              daily := ctx.messageCount.daily + 1 },
            stats := { ctx.stats with
              pathAProcessed := ctx.stats.pathAProcessed + 1,
              totalMessagesSent := ctx.stats.totalMessagesSent + successCount } }
        else ctx
      let ctx := cleanupFingerprintSetIfNeeded ctx
      (ctx, decide (0 < successCount))

/-- `processPathB(text, sourceGroup, fingerprint, ctx)`: identical gates
and bookkeeping to Path A, but with the Path B target list (no free
group) and the Path B counters. -/
def processPathB (cfg : Config) (text : String) (now : Int)
    (rand : Nat → Nat) (env : Nat → SendStep) (ctx : RouterCtx) : RouterCtx × Bool :=
  if containsBlockedNumber text cfg.blockedPhoneNumbers = true then
    ({ ctx with stats := { ctx.stats with
        rejectedBlockedNumber := ctx.stats.rejectedBlockedNumber + 1 } }, false)
  else if isTaxiRequest text cfg.requestKeywords cfg.ignoreIfContains [] = false then
    ({ ctx with stats := { ctx.stats with
        rejectedNotTaxi := ctx.stats.rejectedNotTaxi + 1 } }, false)
  else if hasPhoneNumber text = false then
    ({ ctx with stats := { ctx.stats with
        rejectedNoPhone := ctx.stats.rejectedNoPhone + 1 } }, false)
  else
    let rl := checkRateLimit now ctx.messageCount
    let ctx := { ctx with messageCount := rl.1 }
    if rl.2 = false then
      ({ ctx with stats := { ctx.stats with
          rejectedRateLimit := ctx.stats.rejectedRateLimit + 1 } }, false)
    else
      let uniqueTargets := shuffleArray rand (pathBTargets cfg text)
      let send := sendToMultipleGroupsSequential env now uniqueTargets ctx
      let ctx := send.1
      let successCount := send.2.1
      let ctx := if 0 < successCount then
        { ctx with
            messageCount := { ctx.messageCount with
              hourly := ctx.messageCount.hourly + 1,
              daily := ctx.messageCount.daily + 1 },
            stats := { ctx.stats with
              pathBProcessed := ctx.stats.pathBProcessed + 1,
              totalMessagesSent := ctx.stats.totalMessagesSent + successCount } }
        else ctx
      let ctx := cleanupFingerprintSetIfNeeded ctx
      (ctx, decide (0 < successCount))

/-! ### Claim C8 -/

/-- Claim C8: for every configuration and text, the deduplicated Path A
target list equals, as a set, the paid groups united with the resolved
city group (when found with a configured non-blank id) united with the
free group; the Path B list equals the paid groups united with the
resolved city group (no free group); both lists have no duplicates; and
for every shuffle oracle the shuffled list passed to delivery is a
duplicate-free permutation of the deduplicated list. -/
theorem routing_target_sets (cfg : Config) (text : String) (r : Nat → Nat) :
    (pathATargets cfg text).toFinset =
      cfg.paidCommonGroupId.toFinset ∪ (resolvedCityGroup cfg text).toList.toFinset ∪
        {cfg.freeCommonGroupId}
    ∧ (pathBTargets cfg text).toFinset =
      cfg.paidCommonGroupId.toFinset ∪ (resolvedCityGroup cfg text).toList.toFinset
    ∧ (pathATargets cfg text).Nodup
    ∧ (pathBTargets cfg text).Nodup
    ∧ List.Perm (shuffleArray r (pathATargets cfg text)) (pathATargets cfg text)
    ∧ List.Perm (shuffleArray r (pathBTargets cfg text)) (pathBTargets cfg text)
    ∧ (shuffleArray r (pathATargets cfg text)).Nodup
    ∧ (shuffleArray r (pathBTargets cfg text)).Nodup := by
  have hA := shuffleArray_perm r (pathATargets cfg text)
  have hB := shuffleArray_perm r (pathBTargets cfg text)
  refine ⟨?_, ?_, nodup_jsSetDedup _, nodup_jsSetDedup _, hA, hB,
    hA.nodup_iff.mpr (nodup_jsSetDedup _), hB.nodup_iff.mpr (nodup_jsSetDedup _)⟩
  · rw [pathATargets, toFinset_jsSetDedup]
    simp [List.toFinset_append, Finset.union_assoc]
  · rw [pathBTargets, toFinset_jsSetDedup]
    simp [List.toFinset_append]

/-! ### Claim C6 -/

/-- Claim C6: (a) whenever the breaker is open at entry,
`sendToMultipleGroupsSequential` returns zero successes without invoking
`sendMessage` on any target and without touching the context (in
particular the cooldown map); (b) `handleSendFailure` opens the breaker
exactly when the incremented failure count reaches `MAX_FAILURES = 10`;
(c) consequently a send dispatched immediately after the tripping
failure contacts no target and reports zero successes. -/
theorem breaker_suspension (env env2 : Nat → SendStep) (now now2 now3 : Int)
    (targets targets2 : List String) (ctx ctx2 : RouterCtx) (b : BreakerState)
    (hopen : ctx.circuitBreaker.isOpen = true)
    (hclosed : b.isOpen = false) (htrip : MAX_FAILURES ≤ b.failureCount + 1)
    (hc2 : ctx2.circuitBreaker = handleSendFailure now2 b) :
    sendToMultipleGroupsSequential env now targets ctx = (ctx, 0, targets.length, [])
    ∧ (handleSendFailure now2 b).isOpen = true
    ∧ sendToMultipleGroupsSequential env2 now3 targets2 ctx2 =
        (ctx2, 0, targets2.length, []) := by
  have hfail : (handleSendFailure now2 b).isOpen = true := by
    unfold handleSendFailure
    simp only [if_pos htrip, hclosed]
    simp
  refine ⟨?_, hfail, ?_⟩
  · unfold sendToMultipleGroupsSequential
    rw [if_pos hopen]
  · unfold sendToMultipleGroupsSequential
    rw [hc2, if_pos hfail]

/-- Witness for C6 at a concrete open breaker, a breaker one failure from
the threshold, and concrete target lists. -/
theorem breaker_suspension_witness :
    sendToMultipleGroupsSequential (fun _ => ⟨false, .ok⟩) 5 ["g1@g.us", "g2@g.us"]
      ⟨{}, {}, { failureCount := 10, isOpen := true }, [], []⟩ =
      (⟨{}, {}, { failureCount := 10, isOpen := true }, [], []⟩, 0, 2, [])
    ∧ (handleSendFailure 6 { failureCount := 9, isOpen := false }).isOpen = true
    ∧ sendToMultipleGroupsSequential (fun _ => ⟨false, .ok⟩) 7 ["g3@g.us"]
        ⟨{}, {}, handleSendFailure 6 { failureCount := 9, isOpen := false }, [], []⟩ =
        (⟨{}, {}, handleSendFailure 6 { failureCount := 9, isOpen := false }, [], []⟩, 0, 1, []) :=
  breaker_suspension (fun _ => ⟨false, .ok⟩) (fun _ => ⟨false, .ok⟩) 5 6 7
    ["g1@g.us", "g2@g.us"] ["g3@g.us"]
    ⟨{}, {}, { failureCount := 10, isOpen := true }, [], []⟩
    ⟨{}, {}, handleSendFailure 6 { failureCount := 9, isOpen := false }, [], []⟩
    { failureCount := 9, isOpen := false }
    (by decide) (by decide) (by decide) rfl

/-! ### Intake gate (`index.js` `handleMessage`) -/

/-- The fields of a Baileys message the intake gate reads.  `text` is the
already-extracted body (`conversation` / caption chain); `participant`
is `msg.key.participant` (`""` when absent); `messageTimestamp` is in
seconds, as delivered by the protocol. -/
structure Msg where
  remoteJid : String
  fromMe : Bool
  id : String
  participant : String
  messageTimestamp : Int
  text : String
deriving DecidableEq

/-- The distinct exit points of `handleMessage`, in source order. -/
inductive Outcome where
  | notGroup
  | fromMe
  | tooOld
  | reconnectGate
  | replay
  | emptyBody
  | botSender
  | tooShort
  | notMonitored
  | duplicateSaved
  | raceSkipped
  | routed (path : String)
  | notRouted
deriving DecidableEq

/-- The routing result delivered back to `handleMessage` at its `await
processMessage(...)` suspension point: either a `{wasRouted, path}`
record or a thrown exception (which the `catch` turns into
`{wasRouted: false}`). -/
inductive RouteStep where
  | ok (wasRouted : Bool) (path : String)
  | threw
deriving DecidableEq

/-- `routingResult?.wasRouted` after the try/catch. -/
def routeWasRouted : RouteStep → Bool
  | .ok w _ => w
  | .threw => false

/-- `routingResult.path` after the try/catch. -/
def routePath : RouteStep → String
  | .ok _ p => p
  | .threw => "none"

/-- The per-bot mutable state of `startBot` that `handleMessage` touches. -/
structure BotState where
  fingerprintSet : List String
  pendingFingerprints : List (String × Int)
  replayIdSet : List String
  stats : Stats
  lastReconnectTime : Int
  needsSettlingDelay : Bool
  fingerprintDirty : Bool
  saveTimerActive : Bool
deriving DecidableEq

/-- `MAX_MESSAGE_AGE` of `index.js`. -/
def MAX_MESSAGE_AGE : Int := 5 * 60 * 1000

/-- `normalizePhone(p)`: digits only, last ten. -/
def normalizePhone (p : String) : List Char :=
  sliceLast 10 (p.toList.filter Char.isDigit)

/-- `(msg.key.participant || "").split("@")[0] || ""`. -/
def participantPrefix (msg : Msg) : String :=
  String.mk (msg.participant.toList.takeWhile (fun c => c ≠ '@'))

/-- `trackReplayId(msgId)`: add, then evict the oldest entry past the
capacity. -/
def trackReplayId (cfg : Config) (l : List String) (msgId : String) : List String :=
  let l2 := setAdd l msgId
  if cfg.maxReplayIds < l2.length then l2.drop 1 else l2

/-- The fingerprint exactly as the intake pipeline computes it
(`index.js` lines 318–319): the 5-minute bucket of the millisecond
timestamp is passed as `getMessageFingerprint`'s `timestamp` argument. -/
def msgFingerprint (msg : Msg) (dateNow : Int) : String :=
  getMessageFingerprint msg.text (some (msg.messageTimestamp * 1000 / 300000)) dateNow

/-- `handleMessage(msg)` of `index.js`, with the wall clock `now`, and
the routing result `route` (the value of the awaited `processMessage`
call, reached only if the pipeline gets that far) as oracles.  Returns
the updated state and the exit taken. -/
def handleMessage (cfg : Config) (now : Int) (st : BotState) (msg : Msg)
    (route : RouteStep) : BotState × Outcome :=
  if listEndsWith msg.remoteJid.toList "@g.us".toList = false then (st, .notGroup)
  else if msg.fromMe = true then
    ({ st with stats := { st.stats with rejectedFromMe := st.stats.rejectedFromMe + 1 } },
      .fromMe)
  else if MAX_MESSAGE_AGE < now - msg.messageTimestamp * 1000 then
    ({ st with stats := { st.stats with rejectedTooOld := st.stats.rejectedTooOld + 1 } },
      .tooOld)
  else if 0 < st.lastReconnectTime ∧ now - st.lastReconnectTime < cfg.strictWindowDuration ∧
      cfg.strictAgeMs < now - msg.messageTimestamp * 1000 then
    ({ st with stats := { st.stats with
        rejectedByReconnectAgeGate := st.stats.rejectedByReconnectAgeGate + 1 } },
      .reconnectGate)
  else if msg.id ∈ st.replayIdSet then
    ({ st with stats := { st.stats with
        replayIdsSkipped := st.stats.replayIdsSkipped + 1 } }, .replay)
  else
    let st := { st with replayIdSet := trackReplayId cfg st.replayIdSet msg.id }
    if msg.text = "" ∨ trimJs msg.text.toList = [] then
      ({ st with stats := { st.stats with
          rejectedEmptyBody := st.stats.rejectedEmptyBody + 1 } }, .emptyBody)
    else if participantPrefix msg ≠ "" ∧ cfg.botPhone ≠ "" ∧
        normalizePhone (participantPrefix msg) = normalizePhone cfg.botPhone then
      ({ st with stats := { st.stats with
          rejectedBotSender := st.stats.rejectedBotSender + 1 } }, .botSender)
    else if msg.text.toList.length < cfg.minMessageLength then
      ({ st with stats := { st.stats with
          rejectedTooShort := st.stats.rejectedTooShort + 1 } }, .tooShort)
    else if msg.remoteJid ∉ cfg.sourceGroupIds ∧ msg.remoteJid ≠ cfg.freeCommonGroupId then
      ({ st with stats := { st.stats with
          rejectedNotMonitored := st.stats.rejectedNotMonitored + 1 } }, .notMonitored)
    else if msgFingerprint msg now ∈ st.fingerprintSet then
      ({ st with stats := { st.stats with
          duplicatesSkipped := st.stats.duplicatesSkipped + 1 } }, .duplicateSaved)
    else if (mapLookup st.pendingFingerprints (msgFingerprint msg now)).isSome = true then
      ({ st with stats := { st.stats with
          duplicatesSkipped := st.stats.duplicatesSkipped + 1,
          racePrevented := st.stats.racePrevented + 1 } }, .raceSkipped)
    else
      let st := { st with
                  pendingFingerprints :=
                    mapSet st.pendingFingerprints (msgFingerprint msg now) now }
      -- A4: `if (needsSettlingDelay) { needsSettlingDelay = false; await ... }`:
      -- the flag is false after this point in either case, so the state
      -- update is unconditional (the awaited delay itself is timing only).
      let st := { st with needsSettlingDelay := false }
      let st := { st with
                  stats := { st.stats with totalProcessed := st.stats.totalProcessed + 1 } }
      if routeWasRouted route = true then
        let st := { st with
                    pendingFingerprints :=
                      mapDelete st.pendingFingerprints (msgFingerprint msg now),
                    fingerprintSet := setAdd st.fingerprintSet (msgFingerprint msg now),
                    fingerprintDirty := true,
                    saveTimerActive := true }
        let st := if routePath route = "A" then
          { st with stats := { st.stats with pathARouted := st.stats.pathARouted + 1 } }
          else st
        let st := if routePath route = "B" then
          { st with stats := { st.stats with pathBRouted := st.stats.pathBRouted + 1 } }
          else st
        let st := if cfg.maxFingerprintCache < st.fingerprintSet.length then
          { st with
            fingerprintSet :=
              st.fingerprintSet.drop (st.fingerprintSet.length - cfg.cleanupTargetSize) }
          else st
        (st, .routed (routePath route))
      else
        ({ st with
           pendingFingerprints :=
             mapDelete st.pendingFingerprints (msgFingerprint msg now) }, .notRouted)

/-! ### Map/set helper lemmas for the intake-gate proofs -/

theorem mapLookup_none_forall {β : Type} {m : List (String × β)} {k : String}
    (h : mapLookup m k = none) : ∀ kv ∈ m, kv.1 ≠ k := by
  intro kv hmem
  unfold mapLookup at h
  cases hf : m.find? (fun kv => kv.1 == k) with
  | some kv' => rw [hf] at h; simp at h
  | none =>
    have := List.find?_eq_none.1 hf kv hmem
    simpa using this

theorem mapDelete_mapSet_self {β : Type} {m : List (String × β)} {k : String} (v : β)
    (h : mapLookup m k = none) : mapDelete (mapSet m k v) k = m := by
  have hset : mapSet m k v = m ++ [(k, v)] := by
    unfold mapSet
    rw [h]
    simp
  rw [hset]
  unfold mapDelete
  rw [List.filter_append]
  have h1 : m.filter (fun kv => kv.1 ≠ k) = m :=
    List.filter_eq_self.2 (fun kv hmem => by simpa using mapLookup_none_forall h kv hmem)
  have h2 : [(k, v)].filter (fun kv : String × β => kv.1 ≠ k) = [] := by simp
  rw [h1, h2, List.append_nil]

theorem mem_append_last_drop {α : Type} (l : List α) (x : α) (d : Nat) (hd : d ≤ l.length) :
    x ∈ (l ++ [x]).drop d := by
  rw [List.drop_append_of_le_length hd]
  exact List.mem_append_right _ (List.mem_singleton.2 rfl)

/-! ### Fingerprint persistence (`index.js` `saveFingerprints` /
`loadFingerprints`) -/

/-- One serialized entry of the fingerprint file. -/
structure FpEntry where
  fingerprint : String
  timestamp : Int
deriving DecidableEq

/-- `saveFingerprints()`: serialize the live set, stamping **every**
entry with the wall clock at save time (`timestamp: Date.now()`), capped
to the last `cap` entries by `slice(-cap)` (which returns the whole
array when `cap` is `0`). -/
def saveFingerprints (fingerprintSet : List String) (dateNow : Int) (cap : Nat) :
    List FpEntry :=
  let data := fingerprintSet.map (fun fp => FpEntry.mk fp dateNow)
  if cap = 0 then data else data.drop (data.length - cap)

/-- `loadFingerprints()`: keep the entries whose stamp is strictly newer
than `Date.now() - fingerprintTTL`; the kept fingerprints are added to
the in-memory set. -/
def loadFingerprints (data : List FpEntry) (dateNow : Int) (ttl : Int) : List String :=
  (data.filter (fun it => decide (dateNow - ttl < it.timestamp))).map
    (fun it => it.fingerprint)

/-! ### Claim C9 -/

/-- Claim C9 (counterexample): a fingerprint committed at time 0 and
still live when the debounced save runs at time 7200000 is stamped with
the save time, so a load at 10800000 — later than commit + 2h — still
retains it, contradicting the claim that entries carry the commit
timestamp and are dropped 2h after commit. -/
theorem fingerprint_ttl_counterexample :
    loadFingerprints (saveFingerprints ["fp-x-0"] 7200000 1000) 10800000 7200000 =
      ["fp-x-0"]
    ∧ (0 : Int) + 7200000 < 10800000 := by
  refine ⟨by decide, by decide⟩

/-- Claim C9 (amended: entries carry the save timestamp, and the TTL
window is measured from the save): every entry written by
`saveFingerprints` is stamped with the save-time wall clock, and a load
of the saved file retains exactly the capped fingerprints when the load
happens within `ttl` of the save, and drops them all otherwise. -/
theorem fingerprint_ttl_roundtrip (fps : List String) (saveNow loadNow ttl : Int)
    (cap : Nat) (hcap : cap ≠ 0) :
    (∀ e ∈ saveFingerprints fps saveNow cap, e.timestamp = saveNow)
    ∧ loadFingerprints (saveFingerprints fps saveNow cap) loadNow ttl =
        (if loadNow - ttl < saveNow then fps.drop (fps.length - cap) else []) := by
  have hsave : saveFingerprints fps saveNow cap =
      (fps.drop (fps.length - cap)).map (fun fp => FpEntry.mk fp saveNow) := by
    unfold saveFingerprints
    rw [if_neg hcap]
    simp [List.map_drop]
  constructor
  · intro e he
    rw [hsave] at he
    obtain ⟨fp, _, rfl⟩ := List.mem_map.1 he
    rfl
  · rw [hsave]
    unfold loadFingerprints
    by_cases hk : loadNow - ttl < saveNow
    · rw [if_pos hk, List.filter_eq_self.2 (by
        intro e he
        obtain ⟨fp, _, rfl⟩ := List.mem_map.1 he
        simpa using hk)]
      simp only [List.map_map]
      have hcomp : ((fun it : FpEntry => it.fingerprint) ∘ fun fp => FpEntry.mk fp saveNow) =
          id := rfl
      simp [hcomp]
    · rw [if_neg hk, List.filter_eq_nil_iff.2 (by
        intro e he
        obtain ⟨fp, _, rfl⟩ := List.mem_map.1 he
        simpa using hk)]
      simp

/-- Witness for C9's amended round-trip at a concrete save/load pair. -/
theorem fingerprint_ttl_roundtrip_witness :
    (∀ e ∈ saveFingerprints ["fp-a-1", "fp-b-2"] 5 3, e.timestamp = 5)
    ∧ loadFingerprints (saveFingerprints ["fp-a-1", "fp-b-2"] 5 3) 6 100 =
        (if (6 : Int) - 100 < 5 then ["fp-a-1", "fp-b-2"].drop (["fp-a-1", "fp-b-2"].length - 3)
          else []) :=
  fingerprint_ttl_roundtrip ["fp-a-1", "fp-b-2"] 5 6 100 3 (by decide)

/-! ### Claim C3 -/

/-- Claim C3: when an event passes every gate up to the fingerprint
checks, its fingerprint is not yet committed but **is** held in the
pending-fingerprint optimistic lock, the event is rejected with the
distinct race exit: `duplicatesSkipped` and `racePrevented` are both
incremented and neither the pending lock nor the committed set changes
— whatever routing result the in-flight first attempt will later
produce. -/
theorem pending_lock_race (cfg : Config) (now : Int) (st : BotState) (msg : Msg)
    (route : RouteStep)
    (g1 : listEndsWith msg.remoteJid.toList "@g.us".toList = true)
    (g2 : msg.fromMe = false)
    (g3 : ¬ (MAX_MESSAGE_AGE < now - msg.messageTimestamp * 1000))
    (g4 : ¬ (0 < st.lastReconnectTime ∧ now - st.lastReconnectTime < cfg.strictWindowDuration ∧
          cfg.strictAgeMs < now - msg.messageTimestamp * 1000))
    (g5 : msg.id ∉ st.replayIdSet)
    (g6 : ¬ (msg.text = "" ∨ trimJs msg.text.toList = []))
    (g7 : ¬ (participantPrefix msg ≠ "" ∧ cfg.botPhone ≠ "" ∧
          normalizePhone (participantPrefix msg) = normalizePhone cfg.botPhone))
    (g8 : ¬ (msg.text.toList.length < cfg.minMessageLength))
    (g9 : ¬ (msg.remoteJid ∉ cfg.sourceGroupIds ∧ msg.remoteJid ≠ cfg.freeCommonGroupId))
    (g10 : msgFingerprint msg now ∉ st.fingerprintSet)
    (h11 : (mapLookup st.pendingFingerprints (msgFingerprint msg now)).isSome = true) :
    (handleMessage cfg now st msg route).2 = .raceSkipped
    ∧ (handleMessage cfg now st msg route).1.pendingFingerprints = st.pendingFingerprints
    ∧ (handleMessage cfg now st msg route).1.fingerprintSet = st.fingerprintSet
    ∧ (handleMessage cfg now st msg route).1.stats.duplicatesSkipped =
        st.stats.duplicatesSkipped + 1
    ∧ (handleMessage cfg now st msg route).1.stats.racePrevented =
        st.stats.racePrevented + 1 := by
  have g1' : listEndsWith msg.remoteJid.data ['@', 'g', '.', 'u', 's'] = true := g1
  have g6' : ¬ (msg.text = "" ∨ trimJs msg.text.data = []) := g6
  have g8' : ¬ (msg.text.length < cfg.minMessageLength) := g8
  simp [handleMessage, g1', g2, g3, g4, g5, g6', g7, g8', g9, g10, h11]

/-! ### Concrete fixtures shared by the intake-gate witnesses -/

/-- Witness configuration: one source group, one paid group, empty
city/block/ignore lists, the `taxi` keyword. -/
def wCfg : Config :=
  { botPhone := "910000000001",
    sourceGroupIds := ["123@g.us"],
    freeCommonGroupId := "456@g.us",
    paidCommonGroupId := ["p1@g.us"],
    configuredCities := [],
    cityTargetGroups := [],
    blockedPhoneNumbers := [],
    requestKeywords := ["taxi"],
    ignoreIfContains := [],
    minMessageLength := 10,
    strictWindowDuration := 30000,
    strictAgeMs := 10000,
    maxReplayIds := 200,
    maxFingerprintCache := 2000,
    cleanupTargetSize := 1600 }

/-- Witness inbound event (timestamp 1000 s → bucket 3). -/
def wMsg1 : Msg :=
  { remoteJid := "123@g.us", fromMe := false, id := "A1",
    participant := "911234567890@s.whatsapp.net", messageTimestamp := 1000,
    text := "hello taxi now" }

/-- The same content arriving again under a fresh protocol id. -/
def wMsg2 : Msg := { wMsg1 with id := "A2" }

/-- Fresh witness state. -/
def wSt0 : BotState :=
  { fingerprintSet := [], pendingFingerprints := [], replayIdSet := [],
    stats := {}, lastReconnectTime := 0, needsSettlingDelay := true,
    fingerprintDirty := false, saveTimerActive := false }

/-- Witness state in which `wMsg1`'s fingerprint already holds the
optimistic lock (acquired at time 999). -/
def wStPend : BotState :=
  { wSt0 with pendingFingerprints := [(msgFingerprint wMsg1 1000000, 999)] }

/-- Witness for C3 at the concrete locked state. -/
theorem pending_lock_race_witness :
    (handleMessage wCfg 1000000 wStPend wMsg1 (.ok true "A")).2 = .raceSkipped
    ∧ (handleMessage wCfg 1000000 wStPend wMsg1 (.ok true "A")).1.pendingFingerprints =
        wStPend.pendingFingerprints
    ∧ (handleMessage wCfg 1000000 wStPend wMsg1 (.ok true "A")).1.fingerprintSet =
        wStPend.fingerprintSet
    ∧ (handleMessage wCfg 1000000 wStPend wMsg1 (.ok true "A")).1.stats.duplicatesSkipped =
        wStPend.stats.duplicatesSkipped + 1
    ∧ (handleMessage wCfg 1000000 wStPend wMsg1 (.ok true "A")).1.stats.racePrevented =
        wStPend.stats.racePrevented + 1 :=
  pending_lock_race wCfg 1000000 wStPend wMsg1 (.ok true "A")
    (by decide) (by decide) (by decide) (by decide) (by decide) (by decide)
    (by decide) (by decide) (by decide) (by decide) (by decide)

/-! ### Claim C2 -/

/-- The intake fingerprint depends only on the text and the (non-zero)
5-minute bucket, not on the wall clock: two events with identical text
whose millisecond timestamps fall in the same non-zero bucket receive
the same fingerprint even when processed at different wall-clock times. -/
theorem msgFingerprint_congr (e1 e2 : Msg) (now1 now2 : Int)
    (htext : e2.text = e1.text)
    (hbuck : e2.messageTimestamp * 1000 / 300000 = e1.messageTimestamp * 1000 / 300000)
    (hb0 : e1.messageTimestamp * 1000 / 300000 ≠ 0) :
    msgFingerprint e2 now2 = msgFingerprint e1 now1 := by
  unfold msgFingerprint getMessageFingerprint
  rw [htext, hbuck]
  simp [hb0]

theorem mem_setAdd_self (l : List String) (x : String) : x ∈ setAdd l x := by
  unfold setAdd
  by_cases hx : x ∈ l
  · simpa [hx] using hx
  · simp [hx]

/-- An event that passes every gate and whose routing oracle reports a
successful delivery exits as `.routed` with its fingerprint in the
committed set (the overflow trim never evicts the entry just added while
the cleanup target is positive). -/
theorem admitted_routed_fingerprintSet (cfg : Config) (now : Int) (st : BotState) (msg : Msg)
    (route : RouteStep) (hct : 0 < cfg.cleanupTargetSize)
    (a1 : listEndsWith msg.remoteJid.toList "@g.us".toList = true)
    (a2 : msg.fromMe = false)
    (a3 : ¬ (MAX_MESSAGE_AGE < now - msg.messageTimestamp * 1000))
    (a4 : ¬ (0 < st.lastReconnectTime ∧ now - st.lastReconnectTime < cfg.strictWindowDuration ∧
          cfg.strictAgeMs < now - msg.messageTimestamp * 1000))
    (a5 : msg.id ∉ st.replayIdSet)
    (a6 : ¬ (msg.text = "" ∨ trimJs msg.text.toList = []))
    (a7 : ¬ (participantPrefix msg ≠ "" ∧ cfg.botPhone ≠ "" ∧
          normalizePhone (participantPrefix msg) = normalizePhone cfg.botPhone))
    (a8 : ¬ (msg.text.toList.length < cfg.minMessageLength))
    (a9 : ¬ (msg.remoteJid ∉ cfg.sourceGroupIds ∧ msg.remoteJid ≠ cfg.freeCommonGroupId))
    (a10 : msgFingerprint msg now ∉ st.fingerprintSet)
    (a11 : mapLookup st.pendingFingerprints (msgFingerprint msg now) = none)
    (hroute : routeWasRouted route = true) :
    msgFingerprint msg now ∈ (handleMessage cfg now st msg route).1.fingerprintSet
    ∧ (handleMessage cfg now st msg route).2 = .routed (routePath route) := by
  have a1' : listEndsWith msg.remoteJid.data ['@', 'g', '.', 'u', 's'] = true := a1
  have a6' : ¬ (msg.text = "" ∨ trimJs msg.text.data = []) := a6
  have a8' : ¬ (msg.text.length < cfg.minMessageLength) := a8
  by_cases hpa : routePath route = "A" <;> by_cases hpb : routePath route = "B" <;>
    (simp [handleMessage, a1', a2, a3, a4, a5, a6', a7, a8', a9, a10, a11, hroute, hpa, hpb] <;>
      (split
       · simp only [setAdd, if_neg a10, List.length_append, List.length_singleton]
         exact mem_append_last_drop _ _ _ (by omega)
       · exact mem_setAdd_self _ _))

/-- Claim C2: two inbound events with identical text and timestamps in
the same (non-zero) 5-minute bucket, processed one after the other; the
first passes every gate and its routing reports a successful delivery,
and the second reaches the fingerprint check under a fresh protocol id.
Then the first exits `.routed`, the second is rejected at the
fingerprint-dedup check as a saved duplicate — its fingerprint is found
in the committed set — so exactly one of the two leads to a successful
delivery. -/
theorem dedup_idempotence (cfg : Config) (now1 now2 : Int) (st st1 : BotState)
    (e1 e2 : Msg) (route1 route2 : RouteStep)
    (hct : 0 < cfg.cleanupTargetSize)
    (hb0 : e1.messageTimestamp * 1000 / 300000 ≠ 0)
    (a1 : listEndsWith e1.remoteJid.toList "@g.us".toList = true)
    (a2 : e1.fromMe = false)
    (a3 : ¬ (MAX_MESSAGE_AGE < now1 - e1.messageTimestamp * 1000))
    (a4 : ¬ (0 < st.lastReconnectTime ∧ now1 - st.lastReconnectTime < cfg.strictWindowDuration ∧
          cfg.strictAgeMs < now1 - e1.messageTimestamp * 1000))
    (a5 : e1.id ∉ st.replayIdSet)
    (a6 : ¬ (e1.text = "" ∨ trimJs e1.text.toList = []))
    (a7 : ¬ (participantPrefix e1 ≠ "" ∧ cfg.botPhone ≠ "" ∧
          normalizePhone (participantPrefix e1) = normalizePhone cfg.botPhone))
    (a8 : ¬ (e1.text.toList.length < cfg.minMessageLength))
    (a9 : ¬ (e1.remoteJid ∉ cfg.sourceGroupIds ∧ e1.remoteJid ≠ cfg.freeCommonGroupId))
    (a10 : msgFingerprint e1 now1 ∉ st.fingerprintSet)
    (a11 : mapLookup st.pendingFingerprints (msgFingerprint e1 now1) = none)
    (hroute1 : routeWasRouted route1 = true)
    (hst1 : (handleMessage cfg now1 st e1 route1).1 = st1)
    (htext : e2.text = e1.text)
    (hbuck : e2.messageTimestamp * 1000 / 300000 = e1.messageTimestamp * 1000 / 300000)
    (b1 : listEndsWith e2.remoteJid.toList "@g.us".toList = true)
    (b2 : e2.fromMe = false)
    (b3 : ¬ (MAX_MESSAGE_AGE < now2 - e2.messageTimestamp * 1000))
    (b4 : ¬ (0 < st1.lastReconnectTime ∧ now2 - st1.lastReconnectTime < cfg.strictWindowDuration ∧
          cfg.strictAgeMs < now2 - e2.messageTimestamp * 1000))
    (b5 : e2.id ∉ st1.replayIdSet)
    (b7 : ¬ (participantPrefix e2 ≠ "" ∧ cfg.botPhone ≠ "" ∧
          normalizePhone (participantPrefix e2) = normalizePhone cfg.botPhone))
    (b9 : ¬ (e2.remoteJid ∉ cfg.sourceGroupIds ∧ e2.remoteJid ≠ cfg.freeCommonGroupId)) :
    (handleMessage cfg now1 st e1 route1).2 = .routed (routePath route1)
    ∧ msgFingerprint e2 now2 ∈ st1.fingerprintSet
    ∧ (handleMessage cfg now2 st1 e2 route2).2 = .duplicateSaved
    ∧ (handleMessage cfg now2 st1 e2 route2).1.stats.duplicatesSkipped =
        st1.stats.duplicatesSkipped + 1
    ∧ (handleMessage cfg now2 st1 e2 route2).1.fingerprintSet = st1.fingerprintSet
    ∧ (handleMessage cfg now2 st1 e2 route2).1.pendingFingerprints =
        st1.pendingFingerprints := by
  have hadm := admitted_routed_fingerprintSet cfg now1 st e1 route1 hct
    a1 a2 a3 a4 a5 a6 a7 a8 a9 a10 a11 hroute1
  have hfpeq : msgFingerprint e2 now2 = msgFingerprint e1 now1 :=
    msgFingerprint_congr e1 e2 now1 now2 htext hbuck hb0
  have hmem : msgFingerprint e2 now2 ∈ st1.fingerprintSet := by
    rw [hfpeq, ← hst1]; exact hadm.1
  have b1' : listEndsWith e2.remoteJid.data ['@', 'g', '.', 'u', 's'] = true := b1
  have b6' : ¬ (e2.text = "" ∨ trimJs e2.text.data = []) := by
    have : ¬ (e1.text = "" ∨ trimJs e1.text.data = []) := a6
    rw [htext]; exact this
  have b8' : ¬ (e2.text.length < cfg.minMessageLength) := by
    have : ¬ (e1.text.length < cfg.minMessageLength) := a8
    rw [htext]; exact this
  refine ⟨hadm.2, hmem, ?_, ?_, ?_, ?_⟩ <;>
    simp [handleMessage, b1', b2, b3, b4, b5, b6', b7, b8', b9, hmem]

/-- Witness for C2: the identical-content pair `wMsg1` / `wMsg2`
processed back to back from the fresh state; the duplicate is rejected
against the committed fingerprint. -/
theorem dedup_idempotence_witness :
    (handleMessage wCfg 1000000 wSt0 wMsg1 (.ok true "A")).2 = .routed (routePath (.ok true "A"))
    ∧ msgFingerprint wMsg2 1001000 ∈
        (handleMessage wCfg 1000000 wSt0 wMsg1 (.ok true "A")).1.fingerprintSet
    ∧ (handleMessage wCfg 1001000 (handleMessage wCfg 1000000 wSt0 wMsg1 (.ok true "A")).1
        wMsg2 (.ok true "A")).2 = .duplicateSaved
    ∧ (handleMessage wCfg 1001000 (handleMessage wCfg 1000000 wSt0 wMsg1 (.ok true "A")).1
        wMsg2 (.ok true "A")).1.stats.duplicatesSkipped =
        (handleMessage wCfg 1000000 wSt0 wMsg1 (.ok true "A")).1.stats.duplicatesSkipped + 1
    ∧ (handleMessage wCfg 1001000 (handleMessage wCfg 1000000 wSt0 wMsg1 (.ok true "A")).1
        wMsg2 (.ok true "A")).1.fingerprintSet =
        (handleMessage wCfg 1000000 wSt0 wMsg1 (.ok true "A")).1.fingerprintSet
    ∧ (handleMessage wCfg 1001000 (handleMessage wCfg 1000000 wSt0 wMsg1 (.ok true "A")).1
        wMsg2 (.ok true "A")).1.pendingFingerprints =
        (handleMessage wCfg 1000000 wSt0 wMsg1 (.ok true "A")).1.pendingFingerprints :=
  dedup_idempotence wCfg 1000000 1001000 wSt0
    (handleMessage wCfg 1000000 wSt0 wMsg1 (.ok true "A")).1 wMsg1 wMsg2
    (.ok true "A") (.ok true "A")
    (by decide) (by decide) (by decide) (by decide) (by decide) (by decide)
    (by decide) (by decide) (by decide) (by decide) (by decide) (by decide)
    (by decide) (by decide) rfl (by decide) (by decide) (by decide) (by decide)
    (by decide) (by decide) (by decide) (by decide) (by decide)

/-! ### Claim C4 -/

/-- Claim C4: for every admitted event (all gates through the optimistic
lock acquisition pass), after the pipeline completes the fingerprint is
no longer pending — indeed the pending map is exactly as before the
event; the fingerprint is in the committed set with the persistence
dirty flag raised **iff** routing reported at least one successful
delivery; and when routing reported no success (or threw), the committed
set and the dirty flag are unchanged. -/
theorem commit_or_release (cfg : Config) (now : Int) (st : BotState) (msg : Msg)
    (route : RouteStep) (hct : 0 < cfg.cleanupTargetSize)
    (a1 : listEndsWith msg.remoteJid.toList "@g.us".toList = true)
    (a2 : msg.fromMe = false)
    (a3 : ¬ (MAX_MESSAGE_AGE < now - msg.messageTimestamp * 1000))
    (a4 : ¬ (0 < st.lastReconnectTime ∧ now - st.lastReconnectTime < cfg.strictWindowDuration ∧
          cfg.strictAgeMs < now - msg.messageTimestamp * 1000))
    (a5 : msg.id ∉ st.replayIdSet)
    (a6 : ¬ (msg.text = "" ∨ trimJs msg.text.toList = []))
    (a7 : ¬ (participantPrefix msg ≠ "" ∧ cfg.botPhone ≠ "" ∧
          normalizePhone (participantPrefix msg) = normalizePhone cfg.botPhone))
    (a8 : ¬ (msg.text.toList.length < cfg.minMessageLength))
    (a9 : ¬ (msg.remoteJid ∉ cfg.sourceGroupIds ∧ msg.remoteJid ≠ cfg.freeCommonGroupId))
    (a10 : msgFingerprint msg now ∉ st.fingerprintSet)
    (a11 : mapLookup st.pendingFingerprints (msgFingerprint msg now) = none) :
    (handleMessage cfg now st msg route).1.pendingFingerprints = st.pendingFingerprints
    ∧ mapLookup (handleMessage cfg now st msg route).1.pendingFingerprints
        (msgFingerprint msg now) = none
    ∧ ((msgFingerprint msg now ∈ (handleMessage cfg now st msg route).1.fingerprintSet ∧
        (handleMessage cfg now st msg route).1.fingerprintDirty = true) ↔
        routeWasRouted route = true)
    ∧ (routeWasRouted route = false →
        (handleMessage cfg now st msg route).1.fingerprintSet = st.fingerprintSet ∧
        (handleMessage cfg now st msg route).1.fingerprintDirty = st.fingerprintDirty) := by
  have a1' : listEndsWith msg.remoteJid.data ['@', 'g', '.', 'u', 's'] = true := a1
  have a6' : ¬ (msg.text = "" ∨ trimJs msg.text.data = []) := a6
  have a8' : ¬ (msg.text.length < cfg.minMessageLength) := a8
  have hpend : mapDelete (mapSet st.pendingFingerprints (msgFingerprint msg now) now)
      (msgFingerprint msg now) = st.pendingFingerprints := mapDelete_mapSet_self now a11
  have hpending : (handleMessage cfg now st msg route).1.pendingFingerprints =
      st.pendingFingerprints := by
    cases hr : routeWasRouted route <;>
      by_cases hpa : routePath route = "A" <;> by_cases hpb : routePath route = "B" <;>
        (simp [handleMessage, a1', a2, a3, a4, a5, a6', a7, a8', a9, a10, a11, hr, hpa, hpb] <;>
          (try split) <;> simp [hpend])
  refine ⟨hpending, by rw [hpending]; exact a11, ?_, ?_⟩
  · cases hr : routeWasRouted route with
    | true =>
      have hadm := admitted_routed_fingerprintSet cfg now st msg route hct
        a1 a2 a3 a4 a5 a6 a7 a8 a9 a10 a11 hr
      have hdirty : (handleMessage cfg now st msg route).1.fingerprintDirty = true := by
        by_cases hpa : routePath route = "A" <;> by_cases hpb : routePath route = "B" <;>
          (simp [handleMessage, a1', a2, a3, a4, a5, a6', a7, a8', a9, a10, a11, hr,
            hpa, hpb] <;> (try split) <;> simp)
      simp [hadm.1, hdirty]
    | false =>
      have hset : (handleMessage cfg now st msg route).1.fingerprintSet =
          st.fingerprintSet := by
        simp [handleMessage, a1', a2, a3, a4, a5, a6', a7, a8', a9, a10, a11, hr]
      simp [hset, a10]
  · intro hr
    constructor <;>
      simp [handleMessage, a1', a2, a3, a4, a5, a6', a7, a8', a9, a10, a11, hr]

/-- Witness for C4 at the concrete fresh state, exercising the committed
branch (`route = .ok true "A"`). -/
theorem commit_or_release_witness :
    (handleMessage wCfg 1000000 wSt0 wMsg1 (.ok true "A")).1.pendingFingerprints =
        wSt0.pendingFingerprints
    ∧ mapLookup (handleMessage wCfg 1000000 wSt0 wMsg1 (.ok true "A")).1.pendingFingerprints
        (msgFingerprint wMsg1 1000000) = none
    ∧ ((msgFingerprint wMsg1 1000000 ∈
          (handleMessage wCfg 1000000 wSt0 wMsg1 (.ok true "A")).1.fingerprintSet ∧
        (handleMessage wCfg 1000000 wSt0 wMsg1 (.ok true "A")).1.fingerprintDirty = true) ↔
        routeWasRouted (.ok true "A") = true)
    ∧ (routeWasRouted (.ok true "A") = false →
        (handleMessage wCfg 1000000 wSt0 wMsg1 (.ok true "A")).1.fingerprintSet =
          wSt0.fingerprintSet ∧
        (handleMessage wCfg 1000000 wSt0 wMsg1 (.ok true "A")).1.fingerprintDirty =
          wSt0.fingerprintDirty) :=
  commit_or_release wCfg 1000000 wSt0 wMsg1 (.ok true "A") (by decide)
    (by decide) (by decide) (by decide) (by decide) (by decide) (by decide)
    (by decide) (by decide) (by decide) (by decide) (by decide)

/-! ### Claim C7 — sequential Path A processing -/

/-- The per-message inputs of one `processPathA` call: the text, the wall
clock, and the shuffle/send oracles. -/
structure StepInput where
  text : String
  now : Int
  rand : Nat → Nat
  env : Nat → SendStep

instance : Inhabited StepInput :=
  ⟨⟨"", 0, fun _ => 0, fun _ => ⟨false, SendOutcome.ok⟩⟩⟩

/-- One admitted message processed through Path A. -/
def stepRunA (cfg : Config) (ctx : RouterCtx) (s : StepInput) : RouterCtx × Bool :=
  processPathA cfg s.text s.now s.rand s.env ctx

/-- A sequence of admitted messages processed strictly sequentially. -/
def runPathA (cfg : Config) (ctx : RouterCtx) (steps : List StepInput) : RouterCtx :=
  steps.foldl (fun c s => (stepRunA cfg c s).1) ctx

/-- Every step of the sequence achieved at least one successful delivery
(`processPathA` returned `true`), evaluated along the actual run. -/
def allStepsOk (cfg : Config) (ctx : RouterCtx) : List StepInput → Bool
  | [] => true
  | s :: rest => (stepRunA cfg ctx s).2 && allStepsOk cfg (stepRunA cfg ctx s).1 rest

theorem sendTargetsLoop_messageCount (env : Nat → SendStep) (now : Int) :
    ∀ (targets : List String) (i : Nat) (ctx : RouterCtx) (succ : Nat)
      (att : List String),
      (sendTargetsLoop env now targets i ctx succ att).1.messageCount = ctx.messageCount := by
  intro targets
  induction targets with
  | nil => intro i ctx succ att; rfl
  | cons g rest ih =>
    intro i ctx succ att
    unfold sendTargetsLoop
    by_cases hb : ctx.circuitBreaker.isOpen = true
    · simp [hb]
    · simp only [hb, if_false, ite_false, Bool.false_eq_true]
      cases (env i).outcome <;>
        by_cases hp : 0 < i ∧ (env i).pause = true <;>
          simp [hp, ih]

theorem send_messageCount (env : Nat → SendStep) (now : Int) (targets : List String)
    (ctx : RouterCtx) :
    (sendToMultipleGroupsSequential env now targets ctx).1.messageCount = ctx.messageCount := by
  unfold sendToMultipleGroupsSequential
  by_cases hb : ctx.circuitBreaker.isOpen = true
  · simp [hb]
  · simp only [hb, if_false, ite_false, Bool.false_eq_true]
    split
    · rfl
    · simp [sendTargetsLoop_messageCount]

theorem cleanup_messageCount (ctx : RouterCtx) :
    (cleanupFingerprintSetIfNeeded ctx).messageCount = ctx.messageCount := by
  unfold cleanupFingerprintSetIfNeeded
  split <;> rfl

/-- One successful Path A step under quiet rate windows: the rate check
passed and the hourly/daily counters advanced by exactly one with the
reset stamps untouched. -/
theorem step_true_messageCount (cfg : Config) (ctx : RouterCtx) (s : StepInput)
    (hwin1 : s.now - ctx.messageCount.lastHourReset ≤ 3600000)
    (hwin2 : s.now - ctx.messageCount.lastDayReset ≤ 86400000)
    (hok : (stepRunA cfg ctx s).2 = true) :
    (checkRateLimit s.now ctx.messageCount).2 = true
    ∧ (stepRunA cfg ctx s).1.messageCount =
        { hourly := ctx.messageCount.hourly + 1,
          daily := ctx.messageCount.daily + 1,
          lastHourReset := ctx.messageCount.lastHourReset,
          lastDayReset := ctx.messageCount.lastDayReset } := by
  have hcrl : checkRateLimit s.now ctx.messageCount =
      (ctx.messageCount,
        decide (ctx.messageCount.hourly < RATE_LIMITS_HOURLY) &&
        decide (ctx.messageCount.daily < RATE_LIMITS_DAILY)) := by
    simp only [checkRateLimit]
    rw [if_neg (show ¬ (3600000 < s.now - ctx.messageCount.lastHourReset) by omega),
      if_neg (show ¬ (86400000 < s.now - ctx.messageCount.lastDayReset) by omega)]
  unfold stepRunA processPathA at hok ⊢
  by_cases hb : containsBlockedNumber s.text cfg.blockedPhoneNumbers = true
  · simp [hb] at hok
  · rw [if_neg hb] at hok ⊢
    by_cases ht : isTaxiRequest s.text cfg.requestKeywords cfg.ignoreIfContains [] = false
    · simp [ht] at hok
    · rw [if_neg ht] at hok ⊢
      by_cases hp : hasPhoneNumber s.text = false
      · simp [hp] at hok
      · rw [if_neg hp] at hok ⊢
        simp only [hcrl] at hok ⊢
        by_cases hv : (decide (ctx.messageCount.hourly < RATE_LIMITS_HOURLY) &&
            decide (ctx.messageCount.daily < RATE_LIMITS_DAILY)) = false
        · simp [hv] at hok
        · rw [if_neg hv] at hok ⊢
          refine ⟨by simpa using hv, ?_⟩
          by_cases hs : 0 <
              (sendToMultipleGroupsSequential s.env s.now
                (shuffleArray s.rand (pathATargets cfg s.text))
                { ctx with messageCount := ctx.messageCount }).2.1
          · simp only [hs, if_true, ite_true]
            rw [cleanup_messageCount]
            simp [send_messageCount]
          · simp [hs] at hok

theorem runPathA_cons (cfg : Config) (ctx : RouterCtx) (s : StepInput)
    (rest : List StepInput) :
    runPathA cfg ctx (s :: rest) = runPathA cfg (stepRunA cfg ctx s).1 rest := rfl

/-- Invariant of a fully-successful run inside quiet rate windows:
counters advance by the number of steps, reset stamps never move. -/
theorem run_invariant (cfg : Config) :
    ∀ (steps : List StepInput) (ctx : RouterCtx),
      allStepsOk cfg ctx steps = true →
      (∀ s ∈ steps, s.now - ctx.messageCount.lastHourReset ≤ 3600000 ∧
        s.now - ctx.messageCount.lastDayReset ≤ 86400000) →
      (runPathA cfg ctx steps).messageCount.hourly =
        ctx.messageCount.hourly + steps.length
      ∧ (runPathA cfg ctx steps).messageCount.daily =
        ctx.messageCount.daily + steps.length
      ∧ (runPathA cfg ctx steps).messageCount.lastHourReset =
        ctx.messageCount.lastHourReset
      ∧ (runPathA cfg ctx steps).messageCount.lastDayReset =
        ctx.messageCount.lastDayReset := by
  intro steps
  induction steps with
  | nil => intro ctx _ _; simp [runPathA]
  | cons s rest ih =>
    intro ctx hok hwin
    have hok1 : (stepRunA cfg ctx s).2 = true := by
      unfold allStepsOk at hok
      rw [Bool.and_eq_true] at hok
      exact hok.1
    have hokrest : allStepsOk cfg (stepRunA cfg ctx s).1 rest = true := by
      unfold allStepsOk at hok
      rw [Bool.and_eq_true] at hok
      exact hok.2
    have hwins := hwin s (List.mem_cons_self s rest)
    have hstep := step_true_messageCount cfg ctx s hwins.1 hwins.2 hok1
    have hmc := hstep.2
    have hrest := ih (stepRunA cfg ctx s).1 hokrest (by
      intro t ht
      have := hwin t (List.mem_cons_of_mem s ht)
      rw [hmc]
      exact this)
    rw [runPathA_cons]
    refine ⟨?_, ?_, ?_, ?_⟩
    · rw [hrest.1, hmc]
      simp [List.length_cons]
      omega
    · rw [hrest.2.1, hmc]
      simp [List.length_cons]
      omega
    · rw [hrest.2.2.1, hmc]
    · rw [hrest.2.2.2, hmc]

theorem allStepsOk_append (cfg : Config) :
    ∀ (l1 l2 : List StepInput) (ctx : RouterCtx),
      allStepsOk cfg ctx (l1 ++ l2) =
        (allStepsOk cfg ctx l1 && allStepsOk cfg (runPathA cfg ctx l1) l2) := by
  intro l1
  induction l1 with
  | nil => intro l2 ctx; simp [allStepsOk, runPathA]
  | cons s rest ih =>
    intro l2 ctx
    simp only [List.cons_append, allStepsOk, runPathA_cons, List.append_eq, ih,
      Bool.and_assoc]

theorem runPathA_append (cfg : Config) (l1 l2 : List StepInput) (ctx : RouterCtx) :
    runPathA cfg ctx (l1 ++ l2) = runPathA cfg (runPathA cfg ctx l1) l2 := by
  unfold runPathA
  exact List.foldl_append _ _ l1 l2

/-- Claim C7: starting a rate window with a zero hourly counter and
enough daily headroom, a sequence of `RATE_LIMITS_HOURLY = 100` admitted
Path A messages — each achieving at least one successful delivery, all
inside the current hourly/daily windows — passes `checkRateLimit` at
every step and drives the hourly counter to exactly 100; the next
admitted attempt that passes the content gates is rejected at the
rate-limit gate with `rejectedRateLimit` incremented and **no other
state change**. -/
theorem hourly_rate_limit (cfg : Config) (ctx0 : RouterCtx) (steps : List StepInput)
    (extra : StepInput)
    (h0 : ctx0.messageCount.hourly = 0)
    (hlen : steps.length = RATE_LIMITS_HOURLY)
    (hdaily : ctx0.messageCount.daily + RATE_LIMITS_HOURLY < RATE_LIMITS_DAILY)
    (hwin : ∀ s ∈ steps, s.now - ctx0.messageCount.lastHourReset ≤ 3600000 ∧
        s.now - ctx0.messageCount.lastDayReset ≤ 86400000)
    (hwinx1 : extra.now - ctx0.messageCount.lastHourReset ≤ 3600000)
    (hwinx2 : extra.now - ctx0.messageCount.lastDayReset ≤ 86400000)
    (hok : allStepsOk cfg ctx0 steps = true)
    (hxb : containsBlockedNumber extra.text cfg.blockedPhoneNumbers = false)
    (hxt : isTaxiRequest extra.text cfg.requestKeywords cfg.ignoreIfContains [] = true)
    (hxp : hasPhoneNumber extra.text = true) :
    (∀ k, k < steps.length →
      (checkRateLimit ((steps.getD k default).now)
        ((runPathA cfg ctx0 (steps.take k)).messageCount)).2 = true)
    ∧ (runPathA cfg ctx0 steps).messageCount.hourly = RATE_LIMITS_HOURLY
    ∧ stepRunA cfg (runPathA cfg ctx0 steps) extra =
        ({ runPathA cfg ctx0 steps with
            stats := { (runPathA cfg ctx0 steps).stats with
              rejectedRateLimit := (runPathA cfg ctx0 steps).stats.rejectedRateLimit + 1 } },
         false) := by
  have hpre : ∀ k, k ≤ steps.length →
      allStepsOk cfg ctx0 (steps.take k) = true ∧
      allStepsOk cfg (runPathA cfg ctx0 (steps.take k)) (steps.drop k) = true := by
    intro k hk
    have hsplit := allStepsOk_append cfg (steps.take k) (steps.drop k) ctx0
    rw [List.take_append_drop] at hsplit
    rw [hsplit, Bool.and_eq_true] at hok
    exact hok
  have hinv : ∀ k, k ≤ steps.length →
      (runPathA cfg ctx0 (steps.take k)).messageCount.hourly = k
      ∧ (runPathA cfg ctx0 (steps.take k)).messageCount.daily =
          ctx0.messageCount.daily + k
      ∧ (runPathA cfg ctx0 (steps.take k)).messageCount.lastHourReset =
          ctx0.messageCount.lastHourReset
      ∧ (runPathA cfg ctx0 (steps.take k)).messageCount.lastDayReset =
          ctx0.messageCount.lastDayReset := by
    intro k hk
    have := run_invariant cfg (steps.take k) ctx0 (hpre k hk).1 (by
      intro t ht
      exact hwin t (List.take_subset k steps ht))
    rw [List.length_take, Nat.min_eq_left hk] at this
    exact ⟨by rw [this.1, h0, Nat.zero_add], this.2.1, this.2.2.1, this.2.2.2⟩
  have hfull := hinv steps.length (Nat.le_refl _)
  rw [List.take_length] at hfull
  refine ⟨?_, by rw [hfull.1, hlen], ?_⟩
  · intro k hk
    have hdropk : steps.drop k = steps.getD k default :: steps.drop (k + 1) := by
      rw [List.getD_eq_getElem _ _ hk]
      exact (List.drop_eq_getElem_cons hk).symm ▸ rfl
    have hoks := (hpre k (Nat.le_of_lt hk)).2
    rw [hdropk] at hoks
    unfold allStepsOk at hoks
    rw [Bool.and_eq_true] at hoks
    have hok1 := hoks.1
    have hki := hinv k (Nat.le_of_lt hk)
    have hmemk : steps.getD k default ∈ steps := by
      rw [List.getD_eq_getElem _ _ hk]
      exact List.getElem_mem hk
    have hw := hwin _ hmemk
    exact (step_true_messageCount cfg _ _ (by rw [hki.2.2.1]; exact hw.1)
      (by rw [hki.2.2.2]; exact hw.2) hok1).1
  · have hcrl : checkRateLimit extra.now (runPathA cfg ctx0 steps).messageCount =
        ((runPathA cfg ctx0 steps).messageCount, false) := by
      simp only [checkRateLimit]
      rw [if_neg (show ¬ (3600000 <
            extra.now - (runPathA cfg ctx0 steps).messageCount.lastHourReset) by
          rw [hfull.2.2.1]; omega),
        if_neg (show ¬ (86400000 <
            extra.now - (runPathA cfg ctx0 steps).messageCount.lastDayReset) by
          rw [hfull.2.2.2]; omega)]
      rw [hfull.1, hlen]
      simp [RATE_LIMITS_HOURLY]
    unfold stepRunA processPathA
    rw [if_neg (by simp [hxb]), if_neg (by simp [hxt]), if_neg (by simp [hxp])]
    simp only [hcrl]
    simp

/-- All-success send oracle for the C7 witness. -/
def wEnvOk : Nat → SendStep := fun _ => ⟨false, SendOutcome.ok⟩

/-- The k-th witness step: same taxi text, wall clocks one second apart
(so every per-group cooldown has elapsed by the next step). -/
def wStep (k : Nat) : StepInput :=
  ⟨"taxi 9876543210", 1000 * (k : Int) + 10, fun _ => 0, wEnvOk⟩

/-- One hundred successive witness steps. -/
def wSteps : List StepInput := (List.range 100).map wStep

/-- Fresh router context for the C7 witness. -/
def wCtx0 : RouterCtx := ⟨{}, {}, {}, [], []⟩

/-- The 101st attempt. -/
def wExtra : StepInput := wStep 100

/-- Witness for C7: one hundred successful sends exhaust the hourly
ceiling and the 101st attempt is rejected with only
`rejectedRateLimit` changing. -/
theorem hourly_rate_limit_witness :
    (∀ k, k < wSteps.length →
      (checkRateLimit ((wSteps.getD k default).now)
        ((runPathA wCfg wCtx0 (wSteps.take k)).messageCount)).2 = true)
    ∧ (runPathA wCfg wCtx0 wSteps).messageCount.hourly = RATE_LIMITS_HOURLY
    ∧ stepRunA wCfg (runPathA wCfg wCtx0 wSteps) wExtra =
        ({ runPathA wCfg wCtx0 wSteps with
            stats := { (runPathA wCfg wCtx0 wSteps).stats with
              rejectedRateLimit :=
                (runPathA wCfg wCtx0 wSteps).stats.rejectedRateLimit + 1 } },
         false) :=
  hourly_rate_limit wCfg wCtx0 wSteps wExtra rfl (by decide) (by decide)
    (by decide) (by decide) (by decide) (by decide) (by decide) (by decide)
    (by decide)

end TaxiBot
